import Mathlib

/-!
# Verification of the validating lightning signer core

A shallow embedding of the policy validator (`simple_validator.rs`) and the
node channel-map operations (`node.rs`) of the validating-lightning-signer
repository, together with theorems settling the frozen claims about them.

Machine integers are modelled as `Nat`; where the source performs unchecked
`u64`/`u32` addition the embedding reduces modulo `2^64` / `2^32`, and where
the source uses `checked_add`/`checked_sub` the embedding uses explicit
bounds checks.  Rust panics (index out of bounds, `expect`, `assert_eq!`,
`panic!`) are modelled by a dedicated error constructor so that divergence is
observable.  Cryptographic primitives and script/transaction templating from
the external `bitcoin`/`lightning` crates are taken as parameters, reflecting
their black-box treatment.
-/

/-- `2^64`, the wraparound modulus of Rust `u64` arithmetic. -/
def u64Mod : Nat := 18446744073709551616

/-- `2^32`, the wraparound modulus of Rust `u32` arithmetic. -/
def u32Mod : Nat := 4294967296

/-- Rust `u64::checked_add`: `none` on overflow past `2^64 - 1`. -/
def checkedAddU64 (a b : Nat) : Option Nat :=
  if a + b < u64Mod then some (a + b) else none

/-- Rust `u64::checked_sub`: `none` on underflow. -/
def checkedSubU64 (a b : Nat) : Option Nat :=
  if b ≤ a then some (a - b) else none

/-- Output scripts are abstract identities (byte-exact script contents are
out of scope); equality of scripts is equality of identities. -/
abbrev Script := Nat

/-- Public keys are abstract identities. -/
abbrev PubKey := Nat

/-- Validation errors produced by the policy validator (`policy/error.rs`):
`policy` for `policy_error` / the `policy_err!` macro, `transactionFormat`
for `transaction_format_err!`.  `panicked` models a Rust panic escaping the
function (indexing out of bounds, `expect`, `assert_eq!`, `panic!`); it is
not a `ValidationError` variant of the source but records divergence. -/
inductive ValidationError where
  | policy (msg : String)
  | transactionFormat (msg : String)
  | panicked (msg : String)
deriving DecidableEq, Repr

/-- `ValidationError::prepend_msg`: prefix the message of a real validation
error.  A panic is not an `Err` value in Rust, so `map_err` never sees it;
the `panicked` marker therefore passes through unchanged. -/
def ValidationError.prependMsg (p : String) : ValidationError → ValidationError
  | .policy m => .policy (p ++ m)
  | .transactionFormat m => .transactionFormat (p ++ m)
  | .panicked m => .panicked m

/-- Result type of validator operations. -/
abbrev VResult (α : Type) := Except ValidationError α

/-- In-flight HTLC description (`HTLCInfo2`). -/
structure HTLCInfo2 where
  value_sat : Nat
  payment_hash : Nat
  cltv_expiry : Nat
deriving DecidableEq, Repr

/-- Canonical description of one commitment transaction (`CommitmentInfo2`). -/
structure CommitmentInfo2 where
  is_counterparty_broadcaster : Bool
  to_countersigner_pubkey : PubKey
  to_countersigner_value_sat : Nat
  revocation_pubkey : PubKey
  to_broadcaster_delayed_pubkey : PubKey
  to_broadcaster_value_sat : Nat
  to_self_delay : Nat
  offered_htlcs : List HTLCInfo2
  received_htlcs : List HTLCInfo2
  feerate_per_kw : Nat
deriving DecidableEq, Repr

/-- `CommitmentInfo2::htlcs_is_empty`. -/
def CommitmentInfo2.htlcs_is_empty (i : CommitmentInfo2) : Bool :=
  i.offered_htlcs.isEmpty && i.received_htlcs.isEmpty

/-- Commitment transaction style (`CommitmentType`). -/
inductive CommitmentType where
  | legacy
  | staticRemoteKey
  | anchors
deriving DecidableEq, Repr

/-- A funding outpoint (txid, vout). -/
structure OutPoint where
  txid : Nat
  vout : Nat
deriving DecidableEq, Repr

/-- Immutable channel parameters (`ChannelSetup`), restricted to the fields
the validator reads. -/
structure ChannelSetup where
  funding_outpoint : OutPoint
  channel_value_sat : Nat
  push_value_msat : Nat
  is_outbound : Bool
  holder_selected_contest_delay : Nat
  counterparty_selected_contest_delay : Nat
  holder_shutdown_script : Option Script
  counterparty_shutdown_script : Option Script
  commitment_type : CommitmentType
deriving DecidableEq, Repr

/-- `ChannelSetup::option_anchor_outputs`. -/
def ChannelSetup.option_anchor_outputs (s : ChannelSetup) : Bool :=
  s.commitment_type = CommitmentType.anchors

/-- Chain state supplied per call (`ChainState`), restricted to the field
the validator reads. -/
structure ChainState where
  current_height : Nat
deriving DecidableEq, Repr

/-- The per-channel enforcement counters and remembered commitments
(`EnforcementState`, declared in `policy/validator.rs`; its fields are as
listed in the specification data model and used throughout the sources). -/
structure EnforcementState where
  next_holder_commit_num : Nat
  next_counterparty_commit_num : Nat
  next_counterparty_revoke_num : Nat
  current_counterparty_point : Option PubKey
  previous_counterparty_point : Option PubKey
  current_holder_commit_info : Option CommitmentInfo2
  current_counterparty_commit_info : Option CommitmentInfo2
  previous_counterparty_commit_info : Option CommitmentInfo2
  mutual_close_signed : Bool
deriving DecidableEq, Repr

/-- Modelled from the spec: `EnforcementState::get_previous_counterparty_point`
(the method body lives in `policy/validator.rs`, which is not among the
provided sources).  Per spec section 4.2 it returns the point for
`commit_num`, valid only when `commit_num == next_counterparty_commit_num - 1`
(current) or `commit_num == next_counterparty_commit_num - 2` (previous, if
still stored); any other request fails with a policy error. -/
def EnforcementState.get_previous_counterparty_point (s : EnforcementState)
    (num : Nat) : VResult PubKey :=
  if (num + 1) % u64Mod = s.next_counterparty_commit_num then
    match s.current_counterparty_point with
    | some p => .ok p
    | none => .error (.policy ("current counterparty point for commit_num " ++
        toString num ++ " not set"))
  else if (num + 2) % u64Mod = s.next_counterparty_commit_num then
    match s.previous_counterparty_point with
    | some p => .ok p
    | none => .error (.policy ("previous counterparty point for commit_num " ++
        toString num ++ " not set"))
  else
    .error (.policy ("get_previous_counterparty_point " ++ toString num ++
      " out of range, next_counterparty_commit_num is " ++
      toString s.next_counterparty_commit_num))

/-- Modelled from the spec: `EnforcementState::get_previous_counterparty_commit_info`
(the method body lives in `policy/validator.rs`, not among the provided
sources).  Mirrors `get_previous_counterparty_point` for the remembered
`CommitmentInfo2` values, per the retry rule of spec section 4.4 which
requires the stored current info for `commit_num == next - 1`. -/
def EnforcementState.get_previous_counterparty_commit_info (s : EnforcementState)
    (num : Nat) : VResult CommitmentInfo2 :=
  if (num + 1) % u64Mod = s.next_counterparty_commit_num then
    match s.current_counterparty_commit_info with
    | some i => .ok i
    | none => .error (.policy ("current counterparty commit info for commit_num " ++
        toString num ++ " not set"))
  else if (num + 2) % u64Mod = s.next_counterparty_commit_num then
    match s.previous_counterparty_commit_info with
    | some i => .ok i
    | none => .error (.policy ("previous counterparty commit info for commit_num " ++
        toString num ++ " not set"))
  else
    .error (.policy ("get_previous_counterparty_commit_info " ++ toString num ++
      " out of range, next_counterparty_commit_num is " ++
      toString s.next_counterparty_commit_num))

/-- Modelled from the spec: `EnforcementState::minimum_to_holder_value`
(`policy/validator.rs`, not among the provided sources).  Per the
output-assignment resolution of spec section 4.4 and the comment at its call
site, it yields the holder value agreed by both remembered commitments when
they are present and within `epsilon_sat` of each other, and `none`
otherwise. -/
def EnforcementState.minimum_to_holder_value (s : EnforcementState)
    (epsilon_sat : Nat) : Option Nat :=
  match s.current_holder_commit_info, s.current_counterparty_commit_info with
  | some hinfo, some cinfo =>
    let hval := hinfo.to_broadcaster_value_sat
    let cval := cinfo.to_countersigner_value_sat
    if hval > cval then
      if hval - cval ≤ epsilon_sat then some cval else none
    else
      if cval - hval ≤ epsilon_sat then some hval else none
  | _, _ => none

/-- Modelled from the spec: `EnforcementState::minimum_to_counterparty_value`
(`policy/validator.rs`, not among the provided sources); the counterparty
counterpart of `minimum_to_holder_value`. -/
def EnforcementState.minimum_to_counterparty_value (s : EnforcementState)
    (epsilon_sat : Nat) : Option Nat :=
  match s.current_holder_commit_info, s.current_counterparty_commit_info with
  | some hinfo, some cinfo =>
    let hval := hinfo.to_countersigner_value_sat
    let cval := cinfo.to_broadcaster_value_sat
    if hval > cval then
      if hval - cval ≤ epsilon_sat then some cval else none
    else
      if cval - hval ≤ epsilon_sat then some hval else none
  | _, _ => none

/-- The Rust `Option<u64>` order restricted to `>`: `None` sorts below any
`Some`. -/
def optGt : Option Nat → Option Nat → Bool
  | some a, some b => a > b
  | some _, none => true
  | none, _ => false

/-- Networks distinguished by `make_simple_policy`. -/
inductive Network where
  | bitcoin
  | testnet
  | regtest
deriving DecidableEq, Repr

/-- Validator tunables (`SimplePolicy`). -/
structure SimplePolicy where
  min_delay : Nat
  max_delay : Nat
  max_channel_size_sat : Nat
  max_push_sat : Nat
  epsilon_sat : Nat
  max_htlcs : Nat
  max_htlc_value_sat : Nat
  use_chain_state : Bool
  min_feerate_per_kw : Nat
  max_feerate_per_kw : Nat
  min_fee : Nat
  max_fee : Nat
deriving DecidableEq, Repr

/-- `make_simple_policy`: the two concrete tunable tables (mainnet vs
testnet/regtest). -/
def make_simple_policy (network : Network) : SimplePolicy :=
  if network = Network.bitcoin then
    { min_delay := 60
      max_delay := 2016
      max_channel_size_sat := 1000000001
      max_push_sat := 0
      epsilon_sat := 1600000
      max_htlcs := 1000
      max_htlc_value_sat := 16777216
      use_chain_state := false
      min_feerate_per_kw := 1000
      max_feerate_per_kw := 1000000
      min_fee := 100
      max_fee := 1000 }
  else
    { min_delay := 4
      max_delay := 2016
      max_channel_size_sat := 1000000001
      max_push_sat := 20000
      epsilon_sat := 10000
      max_htlcs := 1000
      max_htlc_value_sat := 16777216
      use_chain_state := false
      min_feerate_per_kw := 500
      max_feerate_per_kw := 16000
      min_fee := 100
      max_fee := 80000 }

/-- A transaction output (`TxOut`): value in satoshi and output script. -/
structure TxOut where
  value : Nat
  script_pubkey : Script
deriving DecidableEq, Repr

/-- A transaction input (`TxIn`), restricted to the fields the validator
reads: previous outpoint and sequence. -/
structure TxIn where
  prev_txid : Nat
  prev_vout : Nat
  sequence : Nat
deriving DecidableEq, Repr

/-- A bitcoin transaction, restricted to the fields the validator reads. -/
structure Transaction where
  version : Int
  lock_time : Nat
  input : List TxIn
  output : List TxOut
deriving DecidableEq, Repr

/-- The wallet interface consumed by the validator (`Wallet` trait):
`can_spend` may fail with a `Status` (modelled by its message), and
`allowlist_contains` is total. -/
structure Wallet where
  can_spend : List Nat → Script → Except String Bool
  allowlist_contains : Script → Bool

/-- `MIN_DUST_LIMIT_SATOSHIS` (from `util/transaction_utils.rs`; the value is
fixed by the spec common commitment checks: 546 sat). -/
def MIN_DUST_LIMIT_SATOSHIS : Nat := 546

/-- `bitcoin::policy::DUST_RELAY_TX_FEE` (rust-bitcoin library constant). -/
def DUST_RELAY_TX_FEE : Nat := 3000

/-- `lightning::ln::chan_utils::htlc_timeout_tx_weight` (library constant). -/
def htlc_timeout_tx_weight (opt_anchors : Bool) : Nat :=
  if opt_anchors then 666 else 663

/-- `lightning::ln::chan_utils::htlc_success_tx_weight` (library constant). -/
def htlc_success_tx_weight (opt_anchors : Bool) : Nat :=
  if opt_anchors then 706 else 703

/-- `SimpleValidator::ANCHOR_SEQS`. -/
def ANCHOR_SEQS : List Nat := [1]

/-- `SimpleValidator::NON_ANCHOR_SEQS`. -/
def NON_ANCHOR_SEQS : List Nat := [0, 4294967293, 4294967295]

/-- `SimpleValidator::validate_delay`. -/
def validate_delay (policy : SimplePolicy) (name : String) (delay : Nat) :
    VResult Unit :=
  if delay < policy.min_delay then
    .error (.policy (name ++ " too small: " ++ toString delay ++ " < " ++
      toString policy.min_delay))
  else if delay > policy.max_delay then
    .error (.policy (name ++ " too large: " ++ toString delay ++ " > " ++
      toString policy.max_delay))
  else .ok ()

/-- `SimpleValidator::validate_expiry`.  The source adds `current_height`
and the `u32` delay with unchecked `u32` arithmetic, hence the reduction
modulo `2^32`. -/
def validate_expiry (policy : SimplePolicy) (name : String) (expiry : Nat)
    (current_height : Nat) : VResult Unit :=
  if policy.use_chain_state then
    if expiry < (current_height + policy.min_delay) % u32Mod then
      .error (.policy (name ++ " expiry too early: " ++ toString expiry ++
        " < " ++ toString ((current_height + policy.min_delay) % u32Mod)))
    else if expiry > (current_height + policy.max_delay) % u32Mod then
      .error (.policy (name ++ " expiry too late: " ++ toString expiry ++
        " > " ++ toString ((current_height + policy.max_delay) % u32Mod)))
    else .ok ()
  else .ok ()

/-- `SimpleValidator::validate_fee`: `sum_inputs.checked_sub(sum_outputs)`
then the `[min_fee, max_fee]` window. -/
def validate_fee (policy : SimplePolicy) (sum_inputs sum_outputs : Nat) :
    VResult Unit :=
  match checkedSubU64 sum_inputs sum_outputs with
  | none =>
    .error (.policy ("fee underflow: " ++ toString sum_inputs ++ " - " ++
      toString sum_outputs))
  | some fee =>
    if fee < policy.min_fee then
      .error (.policy ("fee below minimum: " ++ toString fee ++ " < " ++
        toString policy.min_fee))
    else if fee > policy.max_fee then
      .error (.policy ("fee above maximum: " ++ toString fee ++ " > " ++
        toString policy.max_fee))
    else .ok ()

/-- `SimpleValidator::outside_epsilon_range`. -/
def outside_epsilon_range (policy : SimplePolicy) (value0 value1 : Nat) :
    Bool × String :=
  if value0 > value1 then
    (value0 - value1 > policy.epsilon_sat, "larger")
  else
    (value1 - value0 > policy.epsilon_sat, "smaller")

/-- Index into a list of transaction outputs; out of bounds is a Rust
panic. -/
def getTxOut (outs : List TxOut) (i : Nat) : VResult TxOut :=
  match outs[i]? with
  | some o => .ok o
  | none => .error (.panicked "index out of bounds: tx.output")

/-- Index into a list of transaction inputs; out of bounds is a Rust
panic. -/
def getTxIn (ins : List TxIn) (i : Nat) : VResult TxIn :=
  match ins[i]? with
  | some o => .ok o
  | none => .error (.panicked "index out of bounds: tx.input")

/-- Index into a list of wallet paths; out of bounds is a Rust panic. -/
def getPath (paths : List (List Nat)) (i : Nat) : VResult (List Nat) :=
  match paths[i]? with
  | some p => .ok p
  | none => .error (.panicked "index out of bounds: paths")

/-- `SimpleValidator::validate_sweep`: common validation for
`validate_delayed_sweep`, `validate_counterparty_htlc_sweep` and
`validate_justice_sweep`.  Structural checks (single input, single output,
input index 0, version 2) come before the fee and destination checks. -/
def validate_sweep (policy : SimplePolicy) (wallet : Wallet) (tx : Transaction)
    (inputIdx : Nat) (amount_sat : Nat) (wallet_path : List Nat) :
    VResult Unit :=
  if tx.input.length ≠ 1 then
    .error (.transactionFormat ("bad number of inputs: " ++
      toString tx.input.length ++ " != 1"))
  else if tx.output.length ≠ 1 then
    .error (.transactionFormat ("bad number of outputs: " ++
      toString tx.output.length ++ " != 1"))
  else if inputIdx ≠ 0 then
    .error (.transactionFormat ("bad input index: " ++ toString inputIdx ++
      " != 0"))
  else if tx.version ≠ 2 then
    .error (.transactionFormat ("bad version: " ++ toString tx.version))
  else
    match getTxOut tx.output 0 with
    | .error e => .error e
    | .ok out0 =>
      match (validate_fee policy amount_sat out0.value).mapError
          (ValidationError.prependMsg "validate_sweep: ") with
      | .error e => .error e
      | .ok _ =>
        let dest_script := out0.script_pubkey
        match wallet.can_spend wallet_path dest_script with
        | .error err => .error (.policy ("wallet can_spend error: " ++ err))
        | .ok spendable =>
          if !spendable && !(wallet.allowlist_contains dest_script) then
            .error (.policy "destination is not in wallet or allowlist")
          else .ok ()

/-- `SimpleValidator::validate_delayed_sweep`. -/
def validate_delayed_sweep (policy : SimplePolicy) (wallet : Wallet)
    (setup : ChannelSetup) (cstate : ChainState) (tx : Transaction)
    (inputIdx : Nat) (amount_sat : Nat) (wallet_path : List Nat) :
    VResult Unit :=
  match (validate_sweep policy wallet tx inputIdx amount_sat wallet_path).mapError
      (ValidationError.prependMsg "validate_delayed_sweep: ") with
  | .error e => .error e
  | .ok _ =>
    if tx.lock_time > cstate.current_height then
      .error (.transactionFormat ("bad locktime: " ++ toString tx.lock_time ++
        " > " ++ toString cstate.current_height))
    else
      match getTxIn tx.input 0 with
      | .error e => .error e
      | .ok in0 =>
        if in0.sequence ≠ setup.counterparty_selected_contest_delay then
          .error (.transactionFormat ("bad sequence: " ++
            toString in0.sequence ++ " != " ++
            toString setup.counterparty_selected_contest_delay))
        else .ok ()

/-- `SimpleValidator::validate_counterparty_htlc_sweep`.  The redeemscript
parsers `parse_received_htlc_script` / `parse_offered_htlc_script` live in
`tx/tx.rs` (not among the provided sources) and are taken as parameters:
`parse_received` yields the parsed `cltv_expiry` (an `i64` in the source)
when the script parses as a received HTLC, `parse_offered` reports whether
it parses as an offered HTLC. -/
def validate_counterparty_htlc_sweep
    (parse_received : Script → Bool → Option Int)
    (parse_offered : Script → Bool → Bool)
    (policy : SimplePolicy) (wallet : Wallet) (setup : ChannelSetup)
    (cstate : ChainState) (tx : Transaction) (redeemscript : Script)
    (inputIdx : Nat) (amount_sat : Nat) (wallet_path : List Nat) :
    VResult Unit :=
  match (validate_sweep policy wallet tx inputIdx amount_sat wallet_path).mapError
      (ValidationError.prependMsg "validate_counterparty_htlc_sweep: ") with
  | .error e => .error e
  | .ok _ =>
    let lockCheck : VResult Unit :=
      match parse_received redeemscript setup.option_anchor_outputs with
      | some cltv_expiry =>
        if cltv_expiry < 0 ∨ cltv_expiry > (4294967295 : Int) then
          .error (.transactionFormat ("bad cltv_expiry: " ++
            toString cltv_expiry))
        else if (tx.lock_time : Int) > cltv_expiry then
          .error (.transactionFormat ("bad locktime: " ++
            toString tx.lock_time ++ " > " ++ toString cltv_expiry))
        else .ok ()
      | none =>
        if parse_offered redeemscript setup.option_anchor_outputs then
          if tx.lock_time > cstate.current_height then
            .error (.transactionFormat ("bad locktime: " ++
              toString tx.lock_time ++ " > " ++
              toString cstate.current_height))
          else .ok ()
        else
          .error (.transactionFormat ("bad redeemscript: " ++
            toString redeemscript))
    match lockCheck with
    | .error e => .error e
    | .ok _ =>
      match getTxIn tx.input 0 with
      | .error e => .error e
      | .ok in0 =>
        let valid_seqs :=
          if setup.option_anchor_outputs then ANCHOR_SEQS else NON_ANCHOR_SEQS
        if !(valid_seqs.contains in0.sequence) then
          .error (.transactionFormat ("bad sequence: " ++
            toString in0.sequence ++ " not in valid sequences"))
        else .ok ()

/-- `SimpleValidator::validate_justice_sweep`. -/
def validate_justice_sweep (policy : SimplePolicy) (wallet : Wallet)
    (_setup : ChannelSetup) (cstate : ChainState) (tx : Transaction)
    (inputIdx : Nat) (amount_sat : Nat) (wallet_path : List Nat) :
    VResult Unit :=
  match (validate_sweep policy wallet tx inputIdx amount_sat wallet_path).mapError
      (ValidationError.prependMsg "validate_justice_sweep: ") with
  | .error e => .error e
  | .ok _ =>
    if tx.lock_time > cstate.current_height then
      .error (.transactionFormat ("bad locktime: " ++ toString tx.lock_time ++
        " > " ++ toString cstate.current_height))
    else
      match getTxIn tx.input 0 with
      | .error e => .error e
      | .ok in0 =>
        if !(NON_ANCHOR_SEQS.contains in0.sequence) then
          .error (.transactionFormat ("bad sequence: " ++
            toString in0.sequence ++ " not in valid sequences"))
        else .ok ()

/-- One HTLC loop of `SimpleValidator::validate_commitment_tx`: for each
HTLC in order, validate its expiry, add its value with `checked_add`, and
enforce the dust limit.  `kind` is "offered" or "received". -/
def validate_htlc_loop (policy : SimplePolicy) (kind : String)
    (dust_limit : Nat) (current_height : Nat) :
    List HTLCInfo2 → Nat → VResult Nat
  | [], acc => .ok acc
  | htlc :: rest, acc =>
    match validate_expiry policy (kind ++ " HTLC") htlc.cltv_expiry
        current_height with
    | .error e => .error e
    | .ok _ =>
      match checkedAddU64 acc htlc.value_sat with
      | none => .error (.policy (kind ++ " HTLC value overflow"))
      | some acc2 =>
        if htlc.value_sat < dust_limit then
          .error (.policy (kind ++ " htlc.value_sat " ++
            toString htlc.value_sat ++ " less than dust limit " ++
            toString dust_limit))
        else
          validate_htlc_loop policy kind dust_limit current_height rest acc2

/-- `SimpleValidator::validate_commitment_tx`: the common commitment checks
applied to both holder and counterparty commitments. -/
def validate_commitment_tx (policy : SimplePolicy) (_estate : EnforcementState)
    (commit_num : Nat) (_commitment_point : PubKey) (setup : ChannelSetup)
    (cstate : ChainState) (info : CommitmentInfo2) : VResult Unit :=
  if info.to_broadcaster_value_sat > 0 ∧
      info.to_broadcaster_value_sat < MIN_DUST_LIMIT_SATOSHIS then
    .error (.policy ("to_broadcaster_value_sat " ++
      toString info.to_broadcaster_value_sat ++ " less than dust limit " ++
      toString MIN_DUST_LIMIT_SATOSHIS))
  else if info.to_countersigner_value_sat > 0 ∧
      info.to_countersigner_value_sat < MIN_DUST_LIMIT_SATOSHIS then
    .error (.policy ("to_countersigner_value_sat " ++
      toString info.to_countersigner_value_sat ++ " less than dust limit " ++
      toString MIN_DUST_LIMIT_SATOSHIS))
  else if info.offered_htlcs.length + info.received_htlcs.length >
      policy.max_htlcs then
    .error (.policy "too many HTLCs")
  else
    let offered_htlc_dust_limit := MIN_DUST_LIMIT_SATOSHIS +
      DUST_RELAY_TX_FEE * htlc_timeout_tx_weight setup.option_anchor_outputs
        / 1000
    match validate_htlc_loop policy "offered" offered_htlc_dust_limit
        cstate.current_height info.offered_htlcs 0 with
    | .error e => .error e
    | .ok acc1 =>
      let received_htlc_dust_limit := MIN_DUST_LIMIT_SATOSHIS +
        DUST_RELAY_TX_FEE * htlc_success_tx_weight setup.option_anchor_outputs
          / 1000
      match validate_htlc_loop policy "received" received_htlc_dust_limit
          cstate.current_height info.received_htlcs acc1 with
      | .error e => .error e
      | .ok htlc_value_sat =>
        if htlc_value_sat > policy.max_htlc_value_sat then
          .error (.policy ("sum of HTLC values " ++ toString htlc_value_sat ++
            " too large"))
        else
          match checkedAddU64 info.to_broadcaster_value_sat
              info.to_countersigner_value_sat with
          | none => .error (.policy "channel value overflow")
          | some sum2 =>
            match checkedAddU64 sum2 htlc_value_sat with
            | none => .error (.policy "channel value overflow on HTLC")
            | some sum_outputs =>
              match (validate_fee policy setup.channel_value_sat
                  sum_outputs).mapError
                  (ValidationError.prependMsg "validate_commitment_tx: ") with
              | .error e => .error e
              | .ok _ =>
                if commit_num = 0 then
                  if info.offered_htlcs.length + info.received_htlcs.length >
                      0 then
                    .error (.policy "initial commitment may not have HTLCS")
                  else if setup.is_outbound then
                    let fundee_value_sat :=
                      if info.is_counterparty_broadcaster then
                        info.to_broadcaster_value_sat
                      else info.to_countersigner_value_sat
                    if fundee_value_sat > setup.push_value_msat / 1000 then
                      .error (.policy
                        ("initial commitment may only send push_value_msat (" ++
                          toString setup.push_value_msat ++ ") to fundee"))
                    else .ok ()
                  else .ok ()
                else .ok ()

/-- `SimpleValidator::validate_counterparty_commitment_tx`. -/
def validate_counterparty_commitment_tx (policy : SimplePolicy)
    (estate : EnforcementState) (commit_num : Nat) (commitment_point : PubKey)
    (setup : ChannelSetup) (cstate : ChainState) (info : CommitmentInfo2) :
    VResult Unit :=
  match (validate_commitment_tx policy estate commit_num commitment_point
      setup cstate info).mapError
      (ValidationError.prependMsg "validate_counterparty_commitment_tx: ") with
  | .error e => .error e
  | .ok _ =>
    if info.to_self_delay ≠ setup.holder_selected_contest_delay then
      .error (.policy "holder_selected_contest_delay mismatch")
    else if commit_num > (estate.next_counterparty_revoke_num + 1) % u64Mod then
      .error (.policy ("invalid attempt to sign counterparty commit_num " ++
        toString commit_num ++ " with next_counterparty_revoke_num " ++
        toString estate.next_counterparty_revoke_num))
    else if (commit_num + 1) % u64Mod = estate.next_counterparty_commit_num then
      match estate.get_previous_counterparty_point commit_num with
      | .error e => .error e
      | .ok prev_commit_point =>
        if commitment_point ≠ prev_commit_point then
          .error (.policy ("retry of sign_counterparty_commitment " ++
            toString commit_num ++ " with changed point"))
        else
          match estate.get_previous_counterparty_commit_info commit_num with
          | .error e => .error e
          | .ok prev_commit_info =>
            if info ≠ prev_commit_info then
              .error (.policy ("retry of sign_counterparty_commitment " ++
                toString commit_num ++ " with changed info"))
            else .ok ()
    else .ok ()

/-- `SimpleValidator::validate_holder_commitment_tx`.  The unconditional
`expect` on `current_holder_commit_info` in the retry branch is a Rust
panic when the info is absent. -/
def validate_holder_commitment_tx (policy : SimplePolicy)
    (estate : EnforcementState) (commit_num : Nat) (commitment_point : PubKey)
    (setup : ChannelSetup) (cstate : ChainState) (info : CommitmentInfo2) :
    VResult Unit :=
  match (validate_commitment_tx policy estate commit_num commitment_point
      setup cstate info).mapError
      (ValidationError.prependMsg "validate_holder_commitment_tx: ") with
  | .error e => .error e
  | .ok _ =>
    if info.to_self_delay ≠ setup.counterparty_selected_contest_delay then
      .error (.policy "counterparty_selected_contest_delay mismatch")
    else
      let retryCheck : VResult Unit :=
        if (commit_num + 1) % u64Mod = estate.next_holder_commit_num then
          match estate.current_holder_commit_info with
          | none => .error (.panicked "current_holder_commit_info")
          | some holder_commit_info =>
            if info ≠ holder_commit_info then
              .error (.policy ("retry holder commitment " ++
                toString commit_num ++ " with changed info"))
            else .ok ()
        else .ok ()
      match retryCheck with
      | .error e => .error e
      | .ok _ =>
        if (commit_num + 2) % u64Mod ≤ estate.next_holder_commit_num then
          .error (.policy ("cannot sign revoked commitment_number " ++
            toString commit_num ++ ", next_holder_commit_num is " ++
            toString estate.next_holder_commit_num))
        else if commit_num = estate.next_holder_commit_num ∧
            estate.mutual_close_signed then
          .error (.policy "mutual close already signed")
        else .ok ()

/-- `SimpleValidator::validate_counterparty_revocation`.  The secp256k1
derivation `PublicKey::from_secret_key` is a black-box primitive, taken as
the parameter `pubkey_of`. -/
def validate_counterparty_revocation (pubkey_of : Nat → PubKey)
    (state : EnforcementState) (revoke_num : Nat) (commitment_secret : Nat) :
    VResult Unit :=
  if revoke_num ≠ state.next_counterparty_revoke_num ∧
      (revoke_num + 1) % u64Mod ≠ state.next_counterparty_revoke_num then
    .error (.policy ("invalid counterparty revoke_num " ++
      toString revoke_num ++ " with next_counterparty_revoke_num " ++
      toString state.next_counterparty_revoke_num))
  else
    let supplied_commit_point := pubkey_of commitment_secret
    match state.get_previous_counterparty_point revoke_num with
    | .error e => .error e
    | .ok prev_commit_point =>
      if supplied_commit_point ≠ prev_commit_point then
        .error (.policy ("revocation commit point mismatch for commit_num " ++
          toString revoke_num))
      else .ok ()

/-- `SimpleValidator::validate_mutual_close_tx`. -/
def validate_mutual_close_tx (policy : SimplePolicy) (wallet : Wallet)
    (setup : ChannelSetup) (estate : EnforcementState)
    (to_holder_value_sat to_counterparty_value_sat : Nat)
    (holder_script counterparty_script : Option Script)
    (holder_wallet_path_hint : List Nat) : VResult Unit :=
  match estate.current_holder_commit_info with
  | none => .error (.policy "current_holder_commit_info missing")
  | some holder_info =>
    match estate.current_counterparty_commit_info with
    | none => .error (.policy "current_counterparty_commit_info missing")
    | some counterparty_info =>
      if to_holder_value_sat > 0 ∧ holder_script = none then
        .error (.policy ("missing holder_script with " ++
          toString to_holder_value_sat ++ " to_holder_value_sat"))
      else if to_counterparty_value_sat > 0 ∧ counterparty_script = none then
        .error (.policy ("missing counterparty_script with " ++
          toString to_counterparty_value_sat ++ " to_counterparty_value_sat"))
      else if setup.holder_shutdown_script ≠ none ∧ to_holder_value_sat > 0 ∧
          holder_script ≠ setup.holder_shutdown_script then
        .error (.policy
          "holder_script does not match upfront holder_shutdown_script")
      else if !holder_info.htlcs_is_empty || !counterparty_info.htlcs_is_empty
          then
        .error (.policy "cannot close with pending htlcs")
      else
        match checkedAddU64 to_holder_value_sat to_counterparty_value_sat with
        | none => .error (.policy "consumed overflow")
        | some sum_outputs =>
          match (validate_fee policy setup.channel_value_sat
              sum_outputs).mapError
              (ValidationError.prependMsg "validate_mutual_close_tx: ") with
          | .error e => .error e
          | .ok _ =>
            let valueCheck : VResult Unit :=
              if setup.is_outbound then
                match outside_epsilon_range policy to_counterparty_value_sat
                    counterparty_info.to_broadcaster_value_sat with
                | (true, descr) =>
                  .error (.policy ("to_counterparty_value " ++
                    toString to_counterparty_value_sat ++ " is " ++ descr ++
                    " than counterparty_info.broadcaster_value_sat " ++
                    toString counterparty_info.to_broadcaster_value_sat))
                | (false, _) =>
                  match outside_epsilon_range policy to_counterparty_value_sat
                      holder_info.to_countersigner_value_sat with
                  | (true, descr) =>
                    .error (.policy ("to_counterparty_value " ++
                      toString to_counterparty_value_sat ++ " is " ++ descr ++
                      " than holder_info.countersigner_value_sat " ++
                      toString holder_info.to_countersigner_value_sat))
                  | (false, _) => .ok ()
              else
                match outside_epsilon_range policy to_holder_value_sat
                    holder_info.to_broadcaster_value_sat with
                | (true, descr) =>
                  .error (.policy ("to_holder_value " ++
                    toString to_holder_value_sat ++ " is " ++ descr ++
                    " than holder_info.broadcaster_value_sat " ++
                    toString holder_info.to_broadcaster_value_sat))
                | (false, _) =>
                  match outside_epsilon_range policy to_holder_value_sat
                      counterparty_info.to_countersigner_value_sat with
                  | (true, descr) =>
                    .error (.policy ("to_holder_value " ++
                      toString to_holder_value_sat ++ " is " ++ descr ++
                      " than counterparty_info.countersigner_value_sat " ++
                      toString counterparty_info.to_countersigner_value_sat))
                  | (false, _) => .ok ()
            match valueCheck with
            | .error e => .error e
            | .ok _ =>
              match holder_script with
              | some script =>
                match wallet.can_spend holder_wallet_path_hint script with
                | .error err =>
                  .error (.policy ("wallet can_spend error: " ++ err))
                | .ok spendable =>
                  if !spendable && !(wallet.allowlist_contains script) then
                    .error (.policy
                      "holder output not to wallet or in allowlist")
                  else .ok ()
              | none => .ok ()

/-- The per-ordering argument bundle of
`decode_and_validate_mutual_close_tx` (`struct ValidateArgs`). -/
structure ValidateArgs where
  to_holder_value_sat : Nat
  to_counterparty_value_sat : Nat
  holder_script : Option Script
  counterparty_script : Option Script
  wallet_path : List Nat
deriving DecidableEq, Repr

/-- `validate_mutual_close_tx` applied to a `ValidateArgs` bundle, exactly as
at the two call sites in `decode_and_validate_mutual_close_tx`. -/
def validate_mutual_close_args (policy : SimplePolicy) (wallet : Wallet)
    (setup : ChannelSetup) (estate : EnforcementState) (a : ValidateArgs) :
    VResult Unit :=
  validate_mutual_close_tx policy wallet setup estate a.to_holder_value_sat
    a.to_counterparty_value_sat a.holder_script a.counterparty_script
    a.wallet_path

/-- The data of an LDK `ClosingTransaction` (its construction from values,
scripts and the funding outpoint; the byte-level built transaction is the
parameter `built` below). -/
structure ClosingTransaction where
  to_holder_value_sat : Nat
  to_counterparty_value_sat : Nat
  to_holder_script : Script
  to_counterparty_script : Script
  funding_outpoint : OutPoint
deriving DecidableEq, Repr

/-- `Script::new()`: the empty script, as an abstract identity. -/
def emptyScript : Script := 0

/-- `ClosingTransaction::new` applied to a `ValidateArgs` bundle, as in
`decode_and_validate_mutual_close_tx` (missing scripts default to the empty
script). -/
def closing_from_args (setup : ChannelSetup) (a : ValidateArgs) :
    ClosingTransaction :=
  { to_holder_value_sat := a.to_holder_value_sat
    to_counterparty_value_sat := a.to_counterparty_value_sat
    to_holder_script := a.holder_script.getD emptyScript
    to_counterparty_script := a.counterparty_script.getD emptyScript
    funding_outpoint := setup.funding_outpoint }

/-- `SimpleValidator::decode_and_validate_mutual_close_tx`.  The LDK
trusted-build step `ClosingTransaction::trust().built_transaction()` is the
black-box parameter `built`.  The `assert_eq!` on the wallet-path count and
the `tx.output[0]` / `tx.output[1]` indexing are Rust panics when violated,
and are modelled as such. -/
def decode_and_validate_mutual_close_tx
    (built : ClosingTransaction → Transaction) (policy : SimplePolicy)
    (wallet : Wallet) (setup : ChannelSetup) (estate : EnforcementState)
    (tx : Transaction) (wallet_paths : List (List Nat)) :
    VResult ClosingTransaction :=
  if tx.output.length > 2 then
    .error (.transactionFormat ("invalid number of outputs: " ++
      toString tx.output.length))
  else if wallet_paths.length ≠ tx.output.length then
    .error (.panicked "assertion failed: wallet_paths.len() == tx.output.len()")
  else if estate.current_holder_commit_info = none then
    .error (.policy "current_holder_commit_info missing")
  else if estate.current_counterparty_commit_info = none then
    .error (.policy "current_counterparty_commit_info missing")
  else
    let holder_value := estate.minimum_to_holder_value policy.epsilon_sat
    let cparty_value := estate.minimum_to_counterparty_value policy.epsilon_sat
    let holder_value_is_larger := optGt holder_value cparty_value
    let argPair : VResult (ValidateArgs × ValidateArgs) :=
      if tx.output.length = 1 then
        match getTxOut tx.output 0 with
        | .error e => .error e
        | .ok o0 =>
          match getPath wallet_paths 0 with
          | .error e => .error e
          | .ok wp0 =>
            let holders_output : ValidateArgs :=
              ⟨o0.value, 0, some o0.script_pubkey, none, wp0⟩
            let cpartys_output : ValidateArgs :=
              ⟨0, o0.value, none, some o0.script_pubkey, []⟩
            if holder_value_is_larger then .ok (holders_output, cpartys_output)
            else .ok (cpartys_output, holders_output)
      else
        match getTxOut tx.output 0 with
        | .error e => .error e
        | .ok o0 =>
          match getTxOut tx.output 1 with
          | .error e => .error e
          | .ok o1 =>
            match getPath wallet_paths 0 with
            | .error e => .error e
            | .ok wp0 =>
              match getPath wallet_paths 1 with
              | .error e => .error e
              | .ok wp1 =>
                let holder_first : ValidateArgs :=
                  ⟨o0.value, o1.value, some o0.script_pubkey,
                    some o1.script_pubkey, wp0⟩
                let cparty_first : ValidateArgs :=
                  ⟨o1.value, o0.value, some o1.script_pubkey,
                    some o0.script_pubkey, wp1⟩
                if holder_value_is_larger then .ok (cparty_first, holder_first)
                else .ok (holder_first, cparty_first)
    match argPair with
    | .error e => .error e
    | .ok (likely_args, unlikely_args) =>
      let goodArgs : VResult ValidateArgs :=
        match validate_mutual_close_args policy wallet setup estate
            likely_args with
        | .ok _ => .ok likely_args
        | .error likely_err =>
          match validate_mutual_close_args policy wallet setup estate
              unlikely_args with
          | .ok _ => .ok unlikely_args
          | .error _ => .error likely_err
      match goodArgs with
      | .error e => .error e
      | .ok good_args =>
        let closing_tx := closing_from_args setup good_args
        if built closing_tx ≠ tx then
          .error (.policy "recomposed tx mismatch")
        else .ok closing_tx

/-- A channel slot as seen by `validate_onchain_tx`: a stub, or a ready
channel with the setup fields the validator reads plus the p2wsh script of
the 2-of-2 funding redeemscript derived from the channel keys (the key and
script derivation being black-box, the derived script is carried as
data). -/
inductive ChannelSlotV where
  | stub
  | ready (push_value_msat : Nat) (channel_value_sat : Nat)
      (funding_script_pubkey : Script) (next_holder_commit_num : Nat)
deriving DecidableEq, Repr

/-- The input/output summation loops of `validate_onchain_tx`: fold
`checked_add`, failing with the given policy message on overflow. -/
def sum_checked (overflowMsg : String) : List Nat → Nat → VResult Nat
  | [], acc => .ok acc
  | v :: rest, acc =>
    match checkedAddU64 acc v with
    | none => .error (.policy overflowMsg)
    | some acc2 => sum_checked overflowMsg rest acc2

/-- The per-output loop of `validate_onchain_tx`.  The source indexes
`opaths[outndx]` and `channels[outndx]` for each transaction output, so a
shorter parallel array is an index-out-of-bounds panic; the `ChannelSlot::Stub`
arm is `panic!("this can't happen")`. -/
def validate_onchain_outputs (policy : SimplePolicy) (wallet : Wallet) :
    List TxOut → List (List Nat) → List (Option ChannelSlotV) → Nat →
    VResult Unit
  | [], _, _, _ => .ok ()
  | output :: outRest, opaths, channels, outndx =>
    match opaths with
    | [] => .error (.panicked "index out of bounds: opaths")
    | opath :: opathRest =>
      match channels with
      | [] => .error (.panicked "index out of bounds: channels")
      | channel_slot :: chanRest =>
        let step : VResult Unit :=
          if opath.length > 0 then
            match wallet.can_spend opath output.script_pubkey with
            | .error err =>
              .error (.policy ("output " ++ toString outndx ++
                ": wallet_can_spend error: " ++ err))
            | .ok spendable =>
              if !spendable then
                .error (.policy ("wallet cannot spend output " ++
                  toString outndx))
              else .ok ()
          else
            match channel_slot with
            | none => .error (.policy ("unknown output: " ++ toString outndx))
            | some ChannelSlotV.stub => .error (.panicked "this cannot happen")
            | some (ChannelSlotV.ready push_value_msat channel_value_sat
                funding_script_pubkey next_holder_commit_num) =>
              if push_value_msat / 1000 > policy.max_push_sat then
                .error (.policy ("push_value_msat " ++
                  toString push_value_msat ++ " greater than max_push_sat " ++
                  toString policy.max_push_sat))
              else if output.value ≠ channel_value_sat then
                .error (.policy ("funding output amount mismatch w/ channel: " ++
                  toString output.value ++ " != " ++
                  toString channel_value_sat))
              else if output.script_pubkey ≠ funding_script_pubkey then
                .error (.policy "funding script_pubkey mismatch w/ channel")
              else if next_holder_commit_num ≠ 1 then
                .error (.policy "initial holder commitment not validated")
              else .ok ()
        match step with
        | .error e => .error e
        | .ok _ =>
          validate_onchain_outputs policy wallet outRest opathRest chanRest
            (outndx + 1)

/-- `SimpleValidator::validate_onchain_tx`.  The fee-range check precedes
the version check, which precedes the per-output checks. -/
def validate_onchain_tx (policy : SimplePolicy) (wallet : Wallet)
    (channels : List (Option ChannelSlotV)) (tx : Transaction)
    (values_sat : List Nat) (opaths : List (List Nat)) : VResult Unit :=
  match sum_checked "funding sum inputs overflow" values_sat 0 with
  | .error e => .error e
  | .ok sum_inputs =>
    match sum_checked "funding sum outputs overflow"
        (tx.output.map TxOut.value) 0 with
    | .error e => .error e
    | .ok sum_outputs =>
      match (validate_fee policy sum_inputs sum_outputs).mapError
          (ValidationError.prependMsg "validate_onchain_tx: ") with
      | .error e => .error e
      | .ok _ =>
        if tx.version ≠ 2 then
          .error (.policy ("invalid version: " ++ toString tx.version))
        else
          validate_onchain_outputs policy wallet tx.output opaths channels 0

/-- The structured result of commitment decoding (`CommitmentInfo`), with
the classification state abstracted to an opaque payload (its construction
lives in `tx/tx.rs`, outside the provided sources). -/
structure CommitmentInfo where
  is_counterparty_broadcaster : Bool
  payload : Nat
deriving DecidableEq, Repr

/-- `CommitmentInfo::new`. -/
def CommitmentInfo.new (is_counterparty : Bool) : CommitmentInfo :=
  { is_counterparty_broadcaster := is_counterparty, payload := 0 }

/-- The per-output loop of `decode_commitment_tx`.  `handle_output` stands
for `CommitmentInfo::handle_output` (in `tx/tx.rs`, outside the provided
sources), with the channel keys and setup already applied; the witness-script
array is indexed in parallel with the outputs, so a shorter array is an
index-out-of-bounds panic. -/
def decode_commitment_outputs
    (handle_output : CommitmentInfo → TxOut → List Nat → VResult CommitmentInfo) :
    CommitmentInfo → List TxOut → List (List Nat) → Nat →
    VResult CommitmentInfo
  | info, [], _, _ => .ok info
  | info, o :: outRest, witscripts, ind =>
    match witscripts with
    | [] => .error (.panicked "index out of bounds: output_witscripts")
    | ws :: wsRest =>
      match (handle_output info o ws).mapError
          (ValidationError.prependMsg ("decode_commitment_tx: tx output " ++
            toString ind ++ ": ")) with
      | .error e => .error e
      | .ok info2 =>
        decode_commitment_outputs handle_output info2 outRest wsRest (ind + 1)

/-- `SimpleValidator::decode_commitment_tx`: the version check precedes all
output handling. -/
def decode_commitment_tx
    (handle_output : CommitmentInfo → TxOut → List Nat → VResult CommitmentInfo)
    (_setup : ChannelSetup) (is_counterparty : Bool) (tx : Transaction)
    (output_witscripts : List (List Nat)) : VResult CommitmentInfo :=
  if tx.version ≠ 2 then
    .error (.policy ("bad commitment version: " ++ toString tx.version))
  else
    decode_commitment_outputs handle_output (CommitmentInfo.new is_counterparty)
      tx.output output_witscripts 0

/-- Node-level status errors (`util/status.rs`): `invalidArgument` for
`invalid_argument`, `internalErr` for `internal_error`; `panicked` models a
Rust panic (`expect`). -/
inductive Status where
  | invalidArgument (msg : String)
  | internalErr (msg : String)
  | panicked (msg : String)
deriving DecidableEq, Repr

/-- `Node::can_spend` (the `Wallet` impl in `node.rs`).  The BIP-32 wallet
key derivation `get_wallet_key` and the p2wpkh / p2sh-p2wpkh address script
constructions are black-box primitives, taken as parameters.  An empty child
path returns `Ok(false)` before any derivation. -/
def node_can_spend (get_wallet_key : List Nat → Except String PubKey)
    (p2wpkh_script p2shwpkh_script : PubKey → Script)
    (child_path : List Nat) (script_pubkey : Script) : Except String Bool :=
  if child_path.length = 0 then .ok false
  else
    match get_wallet_key child_path with
    | .error e => .error e
    | .ok pubkey =>
      .ok (script_pubkey == p2wpkh_script pubkey ||
        script_pubkey == p2shwpkh_script pubkey)

/-- A channel stub (`ChannelStub`), restricted to the observable fields:
nonce, derived channel keys (abstract identity) and initial id. -/
structure ChannelStub where
  nonce : List Nat
  keys : Nat
  id0 : Nat
deriving DecidableEq, Repr

/-- A channel slot in the node map (`ChannelSlot`): a stub or a ready
channel (whose contents are irrelevant to `new_channel` and are abstracted
to an identity). -/
inductive NodeChannelSlot where
  | Stub (stub : ChannelStub)
  | Ready (payload : Nat)
deriving DecidableEq, Repr

/-- The node state touched by `new_channel`: the channels map (as an
association list keyed by channel id) and the set of channel ids already
recorded by the persister. -/
structure NodeState where
  channels : List (Nat × NodeChannelSlot)
  persisted : List Nat
deriving DecidableEq, Repr

/-- Lookup in the channels map. -/
def channelsGet (m : List (Nat × NodeChannelSlot)) (k : Nat) :
    Option NodeChannelSlot :=
  match m.find? (fun p => p.1 == k) with
  | some p => some p.2
  | none => none

/-- Insert into the channels map. -/
def channelsInsert (m : List (Nat × NodeChannelSlot)) (k : Nat)
    (v : NodeChannelSlot) : List (Nat × NodeChannelSlot) :=
  (k, v) :: m

/-- The default nonce for a channel id: the id bytes
(`channel_id.0.to_vec()`), under the abstract byte encoding. -/
def nonceOfId (id : Nat) : List Nat := [id]

/-- `Node::new_channel`.  Key derivation
(`keys_manager.get_channel_keys_with_id`, deterministic in id, nonce and the
placeholder channel value 0) is the parameter `get_keys`, and the fresh id a
missing `opt_channel_id` would take (`keys_manager.get_channel_id`) is the
parameter `fresh_id`.  The `expect` on the persister result is a Rust panic
when the channel was already persisted.  On success the channel id and the
stub are returned together with the updated node state; failure leaves the
state unchanged. -/
def new_channel (get_keys : Nat → List Nat → Nat → Nat) (fresh_id : Nat)
    (s : NodeState) (opt_channel_id : Option Nat)
    (opt_channel_nonce0 : Option (List Nat)) :
    Except Status ((Nat × Option ChannelStub) × NodeState) :=
  let channel_id := opt_channel_id.getD fresh_id
  let channel_nonce0 := opt_channel_nonce0.getD (nonceOfId channel_id)
  match channelsGet s.channels channel_id with
  | some (NodeChannelSlot.Stub stub) =>
    if channel_nonce0 ≠ stub.nonce then
      .error (.invalidArgument "new_channel nonce mismatch with existing stub")
    else
      .ok ((channel_id, some stub), s)
  | some (NodeChannelSlot.Ready _) =>
    .error (.invalidArgument "channel already ready")
  | none =>
    let keys := get_keys channel_id channel_nonce0 0
    let stub : ChannelStub :=
      { nonce := channel_nonce0, keys := keys, id0 := channel_id }
    if s.persisted.contains channel_id then
      .error (.panicked "channel was in storage but not in memory")
    else
      .ok ((channel_id, some stub),
        { channels := channelsInsert s.channels channel_id
            (NodeChannelSlot.Stub stub)
          persisted := channel_id :: s.persisted })
/-! ## Concrete instances

Concrete policies, channel parameters, states and transactions used to
exercise the embedded operations at specific inputs. -/

/-- The testnet/regtest tunables. -/
def testnetPolicy : SimplePolicy := make_simple_policy Network.testnet

/-- A representative ready-channel setup: 3,000,000 sat outbound channel,
contest delays 6, no upfront shutdown script. -/
def exSetup : ChannelSetup :=
  { funding_outpoint := ⟨7, 0⟩
    channel_value_sat := 3000000
    push_value_msat := 0
    is_outbound := true
    holder_selected_contest_delay := 6
    counterparty_selected_contest_delay := 6
    holder_shutdown_script := none
    counterparty_shutdown_script := none
    commitment_type := CommitmentType.staticRemoteKey }

/-- A chain state at height 1000. -/
def exCstate : ChainState := ⟨1000⟩

/-- A counterparty-broadcast commitment: 2,000,000 sat to broadcaster,
999,000 sat to countersigner, no HTLCs (fee 1000 sat). -/
def exCpInfo : CommitmentInfo2 :=
  { is_counterparty_broadcaster := true
    to_countersigner_pubkey := 1
    to_countersigner_value_sat := 999000
    revocation_pubkey := 2
    to_broadcaster_delayed_pubkey := 3
    to_broadcaster_value_sat := 2000000
    to_self_delay := 6
    offered_htlcs := []
    received_htlcs := []
    feerate_per_kw := 7500 }

/-- An enforcement state after mutual close signing, at counterparty
commitment number 23 with number 22 revoked. -/
def c1State : EnforcementState :=
  { next_holder_commit_num := 23
    next_counterparty_commit_num := 23
    next_counterparty_revoke_num := 22
    current_counterparty_point := some 10
    previous_counterparty_point := some 9
    current_holder_commit_info := some exCpInfo
    current_counterparty_commit_info := some exCpInfo
    previous_counterparty_commit_info := some exCpInfo
    mutual_close_signed := true }

/-- An enforcement state with current counterparty point 10 and current
counterparty commitment `exCpInfo`, for exercising the retry rule. -/
def c2State : EnforcementState :=
  { next_holder_commit_num := 23
    next_counterparty_commit_num := 23
    next_counterparty_revoke_num := 22
    current_counterparty_point := some 10
    previous_counterparty_point := some 9
    current_holder_commit_info := some exCpInfo
    current_counterparty_commit_info := some exCpInfo
    previous_counterparty_commit_info := some exCpInfo
    mutual_close_signed := false }

/-- An abstract secret-to-point derivation for exercising the revocation
validator. -/
def exPubkeyOf (secret : Nat) : PubKey := secret + 1

/-- An enforcement state expecting revocation of counterparty commitment
number 1, whose stored current point is 5. -/
def c3State : EnforcementState :=
  { next_holder_commit_num := 1
    next_counterparty_commit_num := 2
    next_counterparty_revoke_num := 1
    current_counterparty_point := some 5
    previous_counterparty_point := none
    current_holder_commit_info := some exCpInfo
    current_counterparty_commit_info := some exCpInfo
    previous_counterparty_commit_info := none
    mutual_close_signed := false }

/-- The holder-broadcast view of the same balance as `exCpInfo`:
1,999,000 sat to the holder (broadcaster), 1,000,000 sat to the
counterparty. -/
def exHolderInfo : CommitmentInfo2 :=
  { is_counterparty_broadcaster := false
    to_countersigner_pubkey := 1
    to_countersigner_value_sat := 1000000
    revocation_pubkey := 2
    to_broadcaster_delayed_pubkey := 3
    to_broadcaster_value_sat := 1999000
    to_self_delay := 6
    offered_htlcs := []
    received_htlcs := []
    feerate_per_kw := 7500 }

/-- The counterparty-broadcast view of the same balance: 1,000,000 sat to
the counterparty (broadcaster), 1,999,000 sat to the holder. -/
def exCpCloseInfo : CommitmentInfo2 :=
  { is_counterparty_broadcaster := true
    to_countersigner_pubkey := 1
    to_countersigner_value_sat := 1999000
    revocation_pubkey := 2
    to_broadcaster_delayed_pubkey := 3
    to_broadcaster_value_sat := 1000000
    to_self_delay := 6
    offered_htlcs := []
    received_htlcs := []
    feerate_per_kw := 7500 }

/-- An enforcement state ready for mutual close: both current commitments
present, no pending HTLCs, agreeing balances. -/
def mcState : EnforcementState :=
  { next_holder_commit_num := 23
    next_counterparty_commit_num := 23
    next_counterparty_revoke_num := 22
    current_counterparty_point := some 10
    previous_counterparty_point := some 9
    current_holder_commit_info := some exHolderInfo
    current_counterparty_commit_info := some exCpCloseInfo
    previous_counterparty_commit_info := some exCpCloseInfo
    mutual_close_signed := false }

/-- A wallet that can spend nothing itself and allowlists only script 60. -/
def exWallet : Wallet :=
  { can_spend := fun _ _ => .ok false
    allowlist_contains := fun s => s == 60 }

/-- A two-output mutual close transaction paying 1,000,000 sat to script 50
and 1,999,000 sat to script 60, spending the funding outpoint, but with
lock_time 1 instead of the canonical 0. -/
def c4Tx : Transaction :=
  { version := 2
    lock_time := 1
    input := [⟨7, 0, 4294967295⟩]
    output := [⟨1000000, 50⟩, ⟨1999000, 60⟩] }

/-- A concrete canonical closing-transaction builder standing for the LDK
`ClosingTransaction::trust().built_transaction()`: version 2, lock_time 0,
the single funding input, and the two outputs. -/
def exBuilt (ct : ClosingTransaction) : Transaction :=
  { version := 2
    lock_time := 0
    input := [⟨ct.funding_outpoint.txid, ct.funding_outpoint.vout, 4294967295⟩]
    output := [⟨ct.to_counterparty_value_sat, ct.to_counterparty_script⟩,
      ⟨ct.to_holder_value_sat, ct.to_holder_script⟩] }

/-- The counterparty-first output assignment of `c4Tx`: holder output is
output 1 (1,999,000 sat to allowlisted script 60). -/
def c4CpartyFirst : ValidateArgs := ⟨1999000, 1000000, some 60, some 50, []⟩

/-- A version-2 transaction with no outputs at all. -/
def c5Tx : Transaction :=
  { version := 2
    lock_time := 0
    input := [⟨7, 0, 4294967295⟩]
    output := [] }

/-- A version-1 transaction with one 900 sat output. -/
def c6Tx : Transaction :=
  { version := 1
    lock_time := 0
    input := []
    output := [⟨900, 50⟩] }

/-- A trivial commitment-output handler accepting every output unchanged. -/
def exHandleOutput (info : CommitmentInfo) (_o : TxOut) (_ws : List Nat) :
    VResult CommitmentInfo := .ok info

/-- A version-2 transaction with one 900 sat output. -/
def c7Tx : Transaction :=
  { version := 2
    lock_time := 0
    input := []
    output := [⟨900, 50⟩] }

/-- Input values whose sum overflows a `u64`. -/
def c7Values : List Nat := [18446744073709551615, 1]

/-- An abstract deterministic channel-key derivation. -/
def exGetKeys (id : Nat) (nonce : List Nat) (value : Nat) : Nat :=
  id + nonce.sum + value

/-- A node with no channels and nothing persisted. -/
def emptyNodeState : NodeState := ⟨[], []⟩

/-- A node whose channel slot 5 is already Ready. -/
def c8ReadyState : NodeState := ⟨[(5, NodeChannelSlot.Ready 0)], [5]⟩

/-- A node whose channel slot 5 is a stub with nonce bytes `[8]`. -/
def c8StubState : NodeState :=
  ⟨[(5, NodeChannelSlot.Stub ⟨[8], 13, 5⟩)], [5]⟩

/-- An abstract wallet-key derivation for exercising `Node::can_spend`. -/
def exGetWalletKey (path : List Nat) : Except String PubKey := .ok path.sum

/-- Abstract native-segwit script derivation. -/
def exP2wpkh (k : PubKey) : Script := k * 2

/-- Abstract wrapped-segwit script derivation. -/
def exP2shwpkh (k : PubKey) : Script := k * 2 + 1

/-- A version-2 transaction with two inputs and one output, for the sweep
structural checks. -/
def c10Tx : Transaction :=
  { version := 2
    lock_time := 0
    input := [⟨7, 0, 6⟩, ⟨8, 0, 6⟩]
    output := [⟨900, 60⟩] }

/-- A redeemscript parser that never recognises a received HTLC script. -/
def exParseReceived (_s : Script) (_anchors : Bool) : Option Int := none

/-- A redeemscript parser that never recognises an offered HTLC script. -/
def exParseOffered (_s : Script) (_anchors : Bool) : Bool := false

-- helper shape lemmas

theorem mapError_ok (f : ValidationError → ValidationError) (a : Unit) :
    Except.mapError f (Except.ok a : VResult Unit) = Except.ok a := rfl

theorem mapError_error (f : ValidationError → ValidationError)
    (e : ValidationError) :
    Except.mapError f (Except.error e : VResult Unit) = Except.error (f e) :=
  rfl

theorem prependMsg_policy (p m : String) :
    ValidationError.prependMsg p (.policy m) = .policy (p ++ m) := rfl

theorem validate_expiry_shape (policy : SimplePolicy) (name : String)
    (expiry h : Nat) :
    validate_expiry policy name expiry h = .ok () ∨
    ∃ m, validate_expiry policy name expiry h = .error (.policy m) := by
  unfold validate_expiry
  repeat' split
  all_goals first | exact Or.inl rfl | exact Or.inr ⟨_, rfl⟩

theorem validate_fee_shape (policy : SimplePolicy) (a b : Nat) :
    validate_fee policy a b = .ok () ∨
    ∃ m, validate_fee policy a b = .error (.policy m) := by
  unfold validate_fee
  repeat' split
  all_goals first | exact Or.inl rfl | exact Or.inr ⟨_, rfl⟩

theorem validate_htlc_loop_shape (policy : SimplePolicy) (kind : String)
    (dust h : Nat) (l : List HTLCInfo2) :
    ∀ acc : Nat,
    (∃ v, validate_htlc_loop policy kind dust h l acc = .ok v) ∨
    ∃ m, validate_htlc_loop policy kind dust h l acc = .error (.policy m) := by
  induction l with
  | nil => intro acc; exact Or.inl ⟨acc, rfl⟩
  | cons x xs ih =>
    intro acc
    unfold validate_htlc_loop
    rcases validate_expiry_shape policy (kind ++ " HTLC") x.cltv_expiry h with
      he | ⟨m, he⟩
    · simp only [he]
      cases hadd : checkedAddU64 acc x.value_sat with
      | none => simp only [hadd]; exact Or.inr ⟨_, rfl⟩
      | some acc2 =>
        simp only [hadd]
        split
        · exact Or.inr ⟨_, rfl⟩
        · exact ih acc2
    · simp only [he]
      exact Or.inr ⟨m, rfl⟩

theorem validate_commitment_tx_shape (policy : SimplePolicy)
    (estate : EnforcementState) (commit_num : Nat) (pt : PubKey)
    (setup : ChannelSetup) (cstate : ChainState) (info : CommitmentInfo2) :
    validate_commitment_tx policy estate commit_num pt setup cstate info =
      .ok () ∨
    ∃ m, validate_commitment_tx policy estate commit_num pt setup cstate info =
      .error (.policy m) := by
  unfold validate_commitment_tx
  split
  · exact Or.inr ⟨_, rfl⟩
  split
  · exact Or.inr ⟨_, rfl⟩
  split
  · exact Or.inr ⟨_, rfl⟩
  rcases validate_htlc_loop_shape policy "offered"
      (MIN_DUST_LIMIT_SATOSHIS + DUST_RELAY_TX_FEE *
        htlc_timeout_tx_weight setup.option_anchor_outputs / 1000)
      cstate.current_height info.offered_htlcs 0 with ⟨v1, h1⟩ | ⟨m, h1⟩
  · simp only [h1]
    rcases validate_htlc_loop_shape policy "received"
        (MIN_DUST_LIMIT_SATOSHIS + DUST_RELAY_TX_FEE *
          htlc_success_tx_weight setup.option_anchor_outputs / 1000)
        cstate.current_height info.received_htlcs v1 with ⟨v2, h2⟩ | ⟨m, h2⟩
    · simp only [h2]
      split
      · exact Or.inr ⟨_, rfl⟩
      cases hadd : checkedAddU64 info.to_broadcaster_value_sat
          info.to_countersigner_value_sat with
      | none => simp only [hadd]; exact Or.inr ⟨_, rfl⟩
      | some sum2 =>
        simp only [hadd]
        cases hadd2 : checkedAddU64 sum2 v2 with
        | none => simp only [hadd2]; exact Or.inr ⟨_, rfl⟩
        | some sum3 =>
          simp only [hadd2]
          rcases validate_fee_shape policy setup.channel_value_sat sum3 with
            hf | ⟨m, hf⟩
          · simp only [hf, mapError_ok]
            repeat' split
            all_goals first | exact Or.inl rfl | exact Or.inr ⟨_, rfl⟩
          · simp only [hf, mapError_error, prependMsg_policy]
            exact Or.inr ⟨_, rfl⟩
    · simp only [h2]
      exact Or.inr ⟨m, rfl⟩
  · simp only [h1]
    exact Or.inr ⟨m, rfl⟩

theorem succ_mod_u64_ne (n : Nat) : (n + 1) % u64Mod ≠ n := by
  intro h
  rcases Nat.lt_or_ge n u64Mod with hn | hn
  · rcases Nat.lt_or_ge (n + 1) u64Mod with h1 | h1
    · rw [Nat.mod_eq_of_lt h1] at h
      omega
    · have he : n + 1 = u64Mod := by omega
      rw [he, Nat.mod_self] at h
      have : (2 : Nat) ≤ u64Mod := by norm_num [u64Mod]
      omega
  · have hlt : (n + 1) % u64Mod < u64Mod :=
      Nat.mod_lt _ (by norm_num [u64Mod])
    omega

/-- C1 (counterexample): the claim fails for the counterparty direction.
In the concrete state `c1State`, `mutual_close_signed` is true and
`next_counterparty_commit_num` is 23, yet validating a new (non-retry)
counterparty commitment at number 23 succeeds: the counterparty validator
performs no mutual-close check. -/
theorem c1_counterexample :
    c1State.mutual_close_signed = true ∧
    validate_counterparty_commitment_tx testnetPolicy c1State
      c1State.next_counterparty_commit_num 12 exSetup exCstate exCpInfo =
      .ok () := by
  constructor
  · rfl
  · rfl

/-- C1 (amended): once `mutual_close_signed` is true,
`validate_holder_commitment_tx` on a new (non-retry) holder commitment —
`commit_num` equal to `next_holder_commit_num` — always returns a policy
failure; the counterparty validator performs no such check. -/
theorem c1_mutual_close_blocks_new_holder_commitment
    (policy : SimplePolicy) (estate : EnforcementState) (pt : PubKey)
    (setup : ChannelSetup) (cstate : ChainState) (info : CommitmentInfo2)
    (hmc : estate.mutual_close_signed = true) :
    ∃ m, validate_holder_commitment_tx policy estate
        estate.next_holder_commit_num pt setup cstate info =
      .error (.policy m) := by
  unfold validate_holder_commitment_tx
  rcases validate_commitment_tx_shape policy estate
      estate.next_holder_commit_num pt setup cstate info with hok | ⟨m, herr⟩
  · simp only [hok, mapError_ok]
    split
    · exact ⟨_, rfl⟩
    · simp only [if_neg (succ_mod_u64_ne estate.next_holder_commit_num)]
      split
      · exact ⟨_, rfl⟩
      · rw [if_pos (show _ ∧ _ from ⟨trivial, hmc⟩)]
        exact ⟨_, rfl⟩
  · simp only [herr, mapError_error, prependMsg_policy]
    exact ⟨_, rfl⟩

/-- C1 (witness): the amended theorem applied at the concrete mutually
closed state `c1State`. -/
theorem c1_witness :
    ∃ m, validate_holder_commitment_tx testnetPolicy c1State
        c1State.next_holder_commit_num 12 exSetup exCstate exCpInfo =
      .error (.policy m) :=
  c1_mutual_close_blocks_new_holder_commitment testnetPolicy c1State 12
    exSetup exCstate exCpInfo rfl

/-- C2: under the retry condition
`commit_num + 1 = next_counterparty_commit_num`,
`validate_counterparty_commitment_tx` succeeds only if the supplied point
equals the stored current counterparty point and the supplied info equals
the stored current counterparty commit info; any mismatch of either returns
a policy failure. -/
theorem c2_counterparty_retry_requires_same_point_and_info
    (policy : SimplePolicy) (estate : EnforcementState) (commit_num : Nat)
    (commitment_point : PubKey) (setup : ChannelSetup) (cstate : ChainState)
    (info : CommitmentInfo2)
    (hretry : commit_num + 1 = estate.next_counterparty_commit_num)
    (hlt : commit_num + 1 < u64Mod) :
    (validate_counterparty_commitment_tx policy estate commit_num
        commitment_point setup cstate info = .ok () →
      estate.current_counterparty_point = some commitment_point ∧
      estate.current_counterparty_commit_info = some info) ∧
    ((estate.current_counterparty_point ≠ some commitment_point ∨
      estate.current_counterparty_commit_info ≠ some info) →
      ∃ m, validate_counterparty_commitment_tx policy estate commit_num
          commitment_point setup cstate info = .error (.policy m)) := by
  have hmod : (commit_num + 1) % u64Mod =
      estate.next_counterparty_commit_num := by
    rw [Nat.mod_eq_of_lt hlt]
    exact hretry
  unfold validate_counterparty_commitment_tx
  unfold EnforcementState.get_previous_counterparty_point
  unfold EnforcementState.get_previous_counterparty_commit_info
  rcases validate_commitment_tx_shape policy estate commit_num
      commitment_point setup cstate info with hok | ⟨m, herr⟩
  · simp only [hok, mapError_ok, hmod, eq_self_iff_true, if_true]
    split
    · exact ⟨fun h => by simp at h, fun _ => ⟨_, rfl⟩⟩
    split
    · exact ⟨fun h => by simp at h, fun _ => ⟨_, rfl⟩⟩
    cases hcp : estate.current_counterparty_point with
    | none =>
      simp only [hcp]
      refine ⟨fun h => by simp at h, fun _ => ⟨_, rfl⟩⟩
    | some p =>
      simp only [hcp]
      by_cases hp : commitment_point = p
      · subst hp
        rw [if_neg (by simp : ¬commitment_point ≠ commitment_point)]
        cases hci : estate.current_counterparty_commit_info with
        | none =>
          simp only [hci]
          refine ⟨fun h => by simp at h, fun _ => ⟨_, rfl⟩⟩
        | some i =>
          simp only [hci]
          by_cases hi : info = i
          · subst hi
            rw [if_neg (by simp : ¬info ≠ info)]
            refine ⟨fun _ => by simp [hcp, hci], fun hmis => ?_⟩
            exact absurd hmis (by simp)
          · rw [if_pos (by simpa using hi : info ≠ i)]
            exact ⟨fun h => by simp at h, fun _ => ⟨_, rfl⟩⟩
      · rw [if_pos (by simpa using hp : commitment_point ≠ p)]
        exact ⟨fun h => by simp at h, fun _ => ⟨_, rfl⟩⟩
  · simp only [herr, mapError_error, prependMsg_policy]
    exact ⟨fun h => by simp at h, fun _ => ⟨_, rfl⟩⟩

/-- C2 (witness): retrying counterparty commitment 22 in `c2State`
(next_counterparty_commit_num 23, stored point 10) with a changed point 11
fails with a policy error. -/
theorem c2_witness :
    ∃ m, validate_counterparty_commitment_tx testnetPolicy c2State 22 11
        exSetup exCstate exCpInfo = .error (.policy m) :=
  (c2_counterparty_retry_requires_same_point_and_info testnetPolicy c2State
    22 11 exSetup exCstate exCpInfo rfl (by norm_num [u64Mod])).2
    (Or.inl (by decide))

/-- C3: `validate_counterparty_revocation revoke_num secret` succeeds if and
only if `revoke_num` is the next counterparty revoke number or one before
it, and the point derived from the supplied secret equals the stored
per-commitment point for `revoke_num`; in particular after success the
derived point equals the stored point. -/
theorem c3_revocation_ok_iff (pubkey_of : Nat → PubKey)
    (state : EnforcementState) (revoke_num : Nat) (secret : Nat)
    (hlt : revoke_num + 1 < u64Mod) :
    validate_counterparty_revocation pubkey_of state revoke_num secret =
      .ok () ↔
    ((revoke_num = state.next_counterparty_revoke_num ∨
      revoke_num + 1 = state.next_counterparty_revoke_num) ∧
     ∃ p, state.get_previous_counterparty_point revoke_num = .ok p ∧
       pubkey_of secret = p) := by
  unfold validate_counterparty_revocation
  rw [Nat.mod_eq_of_lt hlt]
  split
  case isTrue h =>
    constructor
    · intro he
      exact absurd he (by simp)
    · rintro ⟨hnum, -⟩
      rcases hnum with heq | heq
      · exact absurd heq h.1
      · exact absurd heq h.2
  case isFalse h =>
    have hnumOr : revoke_num = state.next_counterparty_revoke_num ∨
        revoke_num + 1 = state.next_counterparty_revoke_num := by
      rcases not_and_or.mp h with h1 | h2
      · exact Or.inl (not_not.mp h1)
      · exact Or.inr (not_not.mp h2)
    cases hgp : state.get_previous_counterparty_point revoke_num with
    | error e =>
      simp only [hgp]
      constructor
      · intro he
        exact absurd he (by simp)
      · rintro ⟨-, p, hp, -⟩
        exact absurd hp (by simp)
    | ok p =>
      simp only [hgp]
      split
      case isTrue hne =>
        constructor
        · intro he
          exact absurd he (by simp)
        · rintro ⟨-, q, hq, hpq⟩
          have hqp : p = q := Except.ok.inj hq
          exact absurd (hpq.trans hqp.symm) hne
      case isFalse hne =>
        constructor
        · intro _
          exact ⟨hnumOr, p, rfl, not_not.mp hne⟩
        · intro _
          rfl

/-- C3 (witness): in `c3State` (next revoke 1, stored current point 5 for
commitment 1), revoking commitment 1 with a secret whose derived point is 5
succeeds. -/
theorem c3_witness :
    validate_counterparty_revocation exPubkeyOf c3State 1 4 = .ok () :=
  (c3_revocation_ok_iff exPubkeyOf c3State 1 4 (by norm_num [u64Mod])).mpr
    ⟨Or.inl rfl, 5, rfl, rfl⟩

/-- C4 (counterexample): the claim fails as stated.  For the concrete
two-output close `c4Tx` (all outputs as committed, holder output
allowlisted, but lock_time 1 instead of the canonical 0), the
counterparty-first ordering passes `validate_mutual_close_tx`, yet
`decode_and_validate_mutual_close_tx` returns a policy failure because the
recomposed canonical transaction differs from the submitted one. -/
theorem c4_counterexample :
    validate_mutual_close_args testnetPolicy exWallet exSetup mcState
      c4CpartyFirst = .ok () ∧
    decode_and_validate_mutual_close_tx exBuilt testnetPolicy exWallet
      exSetup mcState c4Tx [[], []] =
      .error (.policy "recomposed tx mismatch") := by
  exact ⟨rfl, rfl⟩

/-- C4 (amended): for a two-output mutual close with both current
commitments present, `decode_and_validate_mutual_close_tx` (i) succeeds
only if one of the two output-assignment orderings passes
`validate_mutual_close_tx`; (ii) when both orderings fail it returns the
error of the first (more likely) ordering, which is tried first and the
other tried only on failure; and (iii) when the chosen ordering passes, it
succeeds exactly when the recomposed canonical transaction equals the
submitted one. -/
theorem c4_amended_resolution
    (built : ClosingTransaction → Transaction) (policy : SimplePolicy)
    (wallet : Wallet) (setup : ChannelSetup) (estate : EnforcementState)
    (tx : Transaction) (wallet_paths : List (List Nat))
    (o0 o1 : TxOut) (wp0 wp1 : List Nat) (lk ul : ValidateArgs)
    (R : VResult ClosingTransaction) (vlk vul : VResult Unit)
    (htx : tx.output = [o0, o1])
    (hwp : wallet_paths = [wp0, wp1])
    (hh : estate.current_holder_commit_info ≠ none)
    (hc : estate.current_counterparty_commit_info ≠ none)
    (hpair : (lk, ul) =
      if optGt (estate.minimum_to_holder_value policy.epsilon_sat)
          (estate.minimum_to_counterparty_value policy.epsilon_sat) then
        (⟨o1.value, o0.value, some o1.script_pubkey, some o0.script_pubkey,
           wp1⟩,
         ⟨o0.value, o1.value, some o0.script_pubkey, some o1.script_pubkey,
           wp0⟩)
      else
        (⟨o0.value, o1.value, some o0.script_pubkey, some o1.script_pubkey,
           wp0⟩,
         ⟨o1.value, o0.value, some o1.script_pubkey, some o0.script_pubkey,
           wp1⟩))
    (hR : R = decode_and_validate_mutual_close_tx built policy wallet setup
      estate tx wallet_paths)
    (hvlk : vlk = validate_mutual_close_args policy wallet setup estate lk)
    (hvul : vul = validate_mutual_close_args policy wallet setup estate ul) :
    ((∃ ct, R = .ok ct) → (vlk = .ok () ∨ vul = .ok ())) ∧
    (∀ e1 e2, vlk = .error e1 → vul = .error e2 → R = .error e1) ∧
    (vlk = .ok () →
      R = if built (closing_from_args setup lk) = tx then
        .ok (closing_from_args setup lk)
      else .error (.policy "recomposed tx mismatch")) ∧
    (∀ e1, vlk = .error e1 → vul = .ok () →
      R = if built (closing_from_args setup ul) = tx then
        .ok (closing_from_args setup ul)
      else .error (.policy "recomposed tx mismatch")) := by
  subst hR hvlk hvul
  unfold decode_and_validate_mutual_close_tx
  simp only [htx, hwp, List.length_cons, List.length_nil]
  rw [if_neg (by norm_num)]
  rw [if_neg (by norm_num)]
  rw [if_neg hh]
  rw [if_neg hc]
  rw [if_neg (by norm_num : ¬(2 = 1))]
  simp only [getTxOut, getPath, List.getElem?_cons_zero, List.getElem?_cons_succ]
  cases hlarger : optGt (estate.minimum_to_holder_value policy.epsilon_sat)
      (estate.minimum_to_counterparty_value policy.epsilon_sat) with
  | true =>
    rw [hlarger] at hpair
    rw [if_pos rfl] at hpair
    rw [Prod.mk.injEq] at hpair
    obtain ⟨hlk, hul⟩ := hpair
    subst hlk
    subst hul
    rw [if_pos rfl]
    cases hv1 : validate_mutual_close_args policy wallet setup estate
        ⟨o1.value, o0.value, some o1.script_pubkey, some o0.script_pubkey,
          wp1⟩ with
    | ok u =>
      cases u
      simp only [hv1]
      refine ⟨fun _ => Or.inl trivial, ?_, ?_, ?_⟩
      · intro e1 e2 h1 h2
        exact absurd h1 (by simp)
      · intro _
        by_cases hb : built (closing_from_args setup
            ⟨o1.value, o0.value, some o1.script_pubkey,
              some o0.script_pubkey, wp1⟩) = tx
        · rw [if_neg (not_not_intro hb), if_pos hb]
        · rw [if_pos hb, if_neg hb]
      · intro e1 h1 _
        exact absurd h1 (by simp)
    | error e =>
      simp only [hv1]
      cases hv2 : validate_mutual_close_args policy wallet setup estate
          ⟨o0.value, o1.value, some o0.script_pubkey, some o1.script_pubkey,
            wp0⟩ with
      | ok u =>
        cases u
        simp only [hv2]
        refine ⟨fun _ => Or.inr trivial, ?_, ?_, ?_⟩
        · intro e1 e2 h1 h2
          exact absurd h2 (by simp)
        · intro h
          exact absurd h (by simp)
        · intro e1 h1 _
          by_cases hb : built (closing_from_args setup
              ⟨o0.value, o1.value, some o0.script_pubkey,
                some o1.script_pubkey, wp0⟩) = tx
          · rw [if_neg (not_not_intro hb), if_pos hb]
          · rw [if_pos hb, if_neg hb]
      | error e2 =>
        simp only [hv2]
        refine ⟨?_, ?_, ?_, ?_⟩
        · rintro ⟨ct, hct⟩
          exact absurd hct (by simp)
        · intro e1 e2b h1 h2
          have he : e = e1 := Except.error.inj h1
          rw [he]
        · intro h
          exact absurd h (by simp)
        · intro e1 h1 h2
          exact absurd h2 (by simp)
  | false =>
    rw [hlarger] at hpair
    rw [if_neg (by simp)] at hpair
    rw [Prod.mk.injEq] at hpair
    obtain ⟨hlk, hul⟩ := hpair
    subst hlk
    subst hul
    rw [if_neg (by simp : ¬(false = true))]
    cases hv1 : validate_mutual_close_args policy wallet setup estate
        ⟨o0.value, o1.value, some o0.script_pubkey, some o1.script_pubkey,
          wp0⟩ with
    | ok u =>
      cases u
      simp only [hv1]
      refine ⟨fun _ => Or.inl trivial, ?_, ?_, ?_⟩
      · intro e1 e2 h1 h2
        exact absurd h1 (by simp)
      · intro _
        by_cases hb : built (closing_from_args setup
            ⟨o0.value, o1.value, some o0.script_pubkey,
              some o1.script_pubkey, wp0⟩) = tx
        · rw [if_neg (not_not_intro hb), if_pos hb]
        · rw [if_pos hb, if_neg hb]
      · intro e1 h1 _
        exact absurd h1 (by simp)
    | error e =>
      simp only [hv1]
      cases hv2 : validate_mutual_close_args policy wallet setup estate
          ⟨o1.value, o0.value, some o1.script_pubkey, some o0.script_pubkey,
            wp1⟩ with
      | ok u =>
        cases u
        simp only [hv2]
        refine ⟨fun _ => Or.inr trivial, ?_, ?_, ?_⟩
        · intro e1 e2 h1 h2
          exact absurd h2 (by simp)
        · intro h
          exact absurd h (by simp)
        · intro e1 h1 _
          by_cases hb : built (closing_from_args setup
              ⟨o1.value, o0.value, some o1.script_pubkey,
                some o0.script_pubkey, wp1⟩) = tx
          · rw [if_neg (not_not_intro hb), if_pos hb]
          · rw [if_pos hb, if_neg hb]
      | error e2 =>
        simp only [hv2]
        refine ⟨?_, ?_, ?_, ?_⟩
        · rintro ⟨ct, hct⟩
          exact absurd hct (by simp)
        · intro e1 e2b h1 h2
          have he : e = e1 := Except.error.inj h1
          rw [he]
        · intro h
          exact absurd h (by simp)
        · intro e1 h1 h2
          exact absurd h2 (by simp)

/-- C4 (witness): the amended theorem applied at the concrete close `c4Tx`:
the likely (counterparty-first) ordering passes, so the result is decided by
the recomposed-transaction comparison. -/
theorem c4_witness :
    decode_and_validate_mutual_close_tx exBuilt testnetPolicy exWallet
      exSetup mcState c4Tx [[], []] =
      (if exBuilt (closing_from_args exSetup c4CpartyFirst) = c4Tx then
        .ok (closing_from_args exSetup c4CpartyFirst)
      else .error (.policy "recomposed tx mismatch")) :=
  (c4_amended_resolution exBuilt testnetPolicy exWallet exSetup mcState c4Tx
    [[], []] ⟨1000000, 50⟩ ⟨1999000, 60⟩ [] [] c4CpartyFirst
    ⟨1000000, 1999000, some 50, some 60, []⟩
    (decode_and_validate_mutual_close_tx exBuilt testnetPolicy exWallet
      exSetup mcState c4Tx [[], []])
    (validate_mutual_close_args testnetPolicy exWallet exSetup mcState
      c4CpartyFirst)
    (validate_mutual_close_args testnetPolicy exWallet exSetup mcState
      ⟨1000000, 1999000, some 50, some 60, []⟩)
    rfl rfl (by decide) (by decide) (by decide) rfl rfl rfl).2.2.1 rfl

/-- C5: a mutual-close transaction with zero outputs is not rejected with an
error; it reaches the two-output assignment code and panics indexing
`tx.output[0]`.  The output-count guard only rejects more than two
outputs. -/
theorem c5_zero_outputs_panic :
    decode_and_validate_mutual_close_tx exBuilt testnetPolicy exWallet
      exSetup mcState c5Tx [] =
      .error (.panicked "index out of bounds: tx.output") := rfl

/-- The summation loops of `validate_onchain_tx` return the exact sum if it
fits in a `u64` and the overflow policy error otherwise (given an in-range
accumulator). -/
theorem sum_checked_spec (msg : String) (l : List Nat) :
    ∀ acc : Nat, acc < u64Mod →
    (acc + l.sum < u64Mod → sum_checked msg l acc = .ok (acc + l.sum)) ∧
    (u64Mod ≤ acc + l.sum → sum_checked msg l acc = .error (.policy msg)) := by
  induction l with
  | nil =>
    intro acc hacc
    refine ⟨fun _ => by simp [sum_checked], fun h => ?_⟩
    simp at h
    omega
  | cons x xs ih =>
    intro acc hacc
    unfold sum_checked
    unfold checkedAddU64
    by_cases hx : acc + x < u64Mod
    · rw [if_pos hx]
      obtain ⟨hok, hof⟩ := ih (acc + x) hx
      constructor
      · intro hfit
        have hsum : acc + (x :: xs).sum = acc + x + xs.sum := by
          simp only [List.sum_cons]
          omega
        show sum_checked msg xs (acc + x) = Except.ok (acc + (x :: xs).sum)
        rw [hsum]
        exact hok (by rw [hsum] at hfit; exact hfit)
      · intro hbig
        show sum_checked msg xs (acc + x) =
          Except.error (ValidationError.policy msg)
        exact hof (by simp only [List.sum_cons] at hbig; omega)
    · rw [if_neg hx]
      constructor
      · intro hfit
        exfalso
        have : xs.sum ≥ 0 := Nat.zero_le _
        simp at hfit
        omega
      · intro _
        rfl

/-- `checked_add` succeeds exactly on in-range sums. -/
theorem checkedAddU64_some (a b c : Nat) (h : checkedAddU64 a b = some c) :
    a + b < u64Mod ∧ c = a + b := by
  unfold checkedAddU64 at h
  split at h
  · exact ⟨by assumption, (Option.some.inj h).symm⟩
  · exact absurd h (by simp)

/-- A successful HTLC loop returns the accumulator plus the sum of the HTLC
values. -/
theorem validate_htlc_loop_ok_sum (policy : SimplePolicy) (kind : String)
    (dust h : Nat) (l : List HTLCInfo2) :
    ∀ acc v : Nat,
    validate_htlc_loop policy kind dust h l acc = .ok v →
    v = acc + (l.map HTLCInfo2.value_sat).sum := by
  induction l with
  | nil =>
    intro acc v hv
    simp [validate_htlc_loop] at hv
    simp [hv.symm]
  | cons x xs ih =>
    intro acc v hv
    unfold validate_htlc_loop at hv
    rcases validate_expiry_shape policy (kind ++ " HTLC") x.cltv_expiry h with
      he | ⟨m, he⟩
    · rw [he] at hv
      simp only at hv
      cases hadd : checkedAddU64 acc x.value_sat with
      | none => rw [hadd] at hv; exact absurd hv (by simp)
      | some acc2 =>
        rw [hadd] at hv
        simp only at hv
        split at hv
        · exact absurd hv (by simp)
        · obtain ⟨-, hacc2⟩ := checkedAddU64_some acc x.value_sat acc2 hadd
          have := ih acc2 v hv
          subst hacc2
          simp [this]
          omega
    · rw [he] at hv
      exact absurd hv (by simp)

/-- C6 (counterexample): the claim fails as stated.  For the version-1
transaction `c6Tx`, both `validate_onchain_tx` and `decode_commitment_tx`
reject with a `policy` error (`policy_err!`), not a `TransactionFormat`
error. -/
theorem c6_counterexample :
    validate_onchain_tx testnetPolicy exWallet [] c6Tx [1000] [] =
      .error (.policy "invalid version: 1") ∧
    decode_commitment_tx exHandleOutput exSetup true c6Tx [] =
      .error (.policy "bad commitment version: 1") :=
  ⟨rfl, rfl⟩

/-- C6 (amended): for every transaction whose version is not 2,
`validate_onchain_tx` fails with a policy failure (never reaching the
output checks) and `decode_commitment_tx` fails with the policy error
naming the bad version; neither reports `TransactionFormat`. -/
theorem c6_nonv2_fails_policy
    (handle_output : CommitmentInfo → TxOut → List Nat → VResult CommitmentInfo)
    (setup : ChannelSetup) (is_counterparty : Bool) (ws : List (List Nat))
    (policy : SimplePolicy) (wallet : Wallet)
    (channels : List (Option ChannelSlotV)) (tx : Transaction)
    (values : List Nat) (opaths : List (List Nat))
    (hv : tx.version ≠ 2) :
    (∃ m, validate_onchain_tx policy wallet channels tx values opaths =
      .error (.policy m)) ∧
    decode_commitment_tx handle_output setup is_counterparty tx ws =
      .error (.policy ("bad commitment version: " ++ toString tx.version)) := by
  constructor
  · unfold validate_onchain_tx
    obtain ⟨hok1, hof1⟩ := sum_checked_spec "funding sum inputs overflow"
      values 0 (by norm_num [u64Mod])
    by_cases h1 : 0 + values.sum < u64Mod
    · rw [hok1 h1]
      obtain ⟨hok2, hof2⟩ := sum_checked_spec "funding sum outputs overflow"
        (tx.output.map TxOut.value) 0 (by norm_num [u64Mod])
      by_cases h2 : 0 + (tx.output.map TxOut.value).sum < u64Mod
      · rw [hok2 h2]
        rcases validate_fee_shape policy (0 + values.sum)
            (0 + (tx.output.map TxOut.value).sum) with hf | ⟨m, hf⟩
        · simp only [hf, mapError_ok]
          rw [if_pos hv]
          exact ⟨_, rfl⟩
        · simp only [hf, mapError_error, prependMsg_policy]
          exact ⟨_, rfl⟩
      · rw [hof2 (le_of_not_lt h2)]
        exact ⟨_, rfl⟩
    · rw [hof1 (le_of_not_lt h1)]
      exact ⟨_, rfl⟩
  · unfold decode_commitment_tx
    rw [if_pos hv]

/-- C6 (witness): the amended theorem applied at the concrete version-1
transaction `c6Tx`. -/
theorem c6_witness :
    (∃ m, validate_onchain_tx testnetPolicy exWallet [] c6Tx [1000] [] =
      .error (.policy m)) ∧
    decode_commitment_tx exHandleOutput exSetup true c6Tx [] =
      .error (.policy ("bad commitment version: " ++ toString c6Tx.version)) :=
  c6_nonv2_fails_policy exHandleOutput exSetup true [] testnetPolicy exWallet
    [] c6Tx [1000] [] (by decide)

/-- C7 (counterexample): the claim fails as stated.  Summing the concrete
input values `c7Values` overflows a `u64`, and `validate_onchain_tx` fails
with a policy failure (from `policy_error`), not an `Internal` error. -/
theorem c7_counterexample :
    validate_onchain_tx testnetPolicy exWallet [] c7Tx c7Values [] =
      .error (.policy "funding sum inputs overflow") := rfl

/-- C7 (amended): whenever summing the funding input values, summing the
funding output values, or summing a commitment's to_broadcaster,
to_countersigner and HTLC values would exceed a `u64`, the validation fails
with a policy failure (via `checked_add`): values are never silently wrapped
around. -/
theorem c7_overflow_fails_policy (policy : SimplePolicy) (wallet : Wallet)
    (channels : List (Option ChannelSlotV)) (tx : Transaction)
    (values : List Nat) (opaths : List (List Nat))
    (estate : EnforcementState) (commit_num : Nat) (pt : PubKey)
    (setup : ChannelSetup) (cstate : ChainState) (info : CommitmentInfo2) :
    (u64Mod ≤ values.sum →
      validate_onchain_tx policy wallet channels tx values opaths =
        .error (.policy "funding sum inputs overflow")) ∧
    (values.sum < u64Mod → u64Mod ≤ (tx.output.map TxOut.value).sum →
      validate_onchain_tx policy wallet channels tx values opaths =
        .error (.policy "funding sum outputs overflow")) ∧
    (u64Mod ≤ info.to_broadcaster_value_sat + info.to_countersigner_value_sat +
        ((info.offered_htlcs.map HTLCInfo2.value_sat).sum +
          (info.received_htlcs.map HTLCInfo2.value_sat).sum) →
      ∃ m, validate_commitment_tx policy estate commit_num pt setup cstate
        info = .error (.policy m)) := by
  refine ⟨?_, ?_, ?_⟩
  · intro hov
    unfold validate_onchain_tx
    obtain ⟨-, hof1⟩ := sum_checked_spec "funding sum inputs overflow"
      values 0 (by norm_num [u64Mod])
    rw [hof1 (by omega)]
  · intro hin hov
    unfold validate_onchain_tx
    obtain ⟨hok1, -⟩ := sum_checked_spec "funding sum inputs overflow"
      values 0 (by norm_num [u64Mod])
    rw [hok1 (by omega)]
    obtain ⟨-, hof2⟩ := sum_checked_spec "funding sum outputs overflow"
      (tx.output.map TxOut.value) 0 (by norm_num [u64Mod])
    rw [hof2 (by omega)]
  · intro hov
    unfold validate_commitment_tx
    split
    · exact ⟨_, rfl⟩
    split
    · exact ⟨_, rfl⟩
    split
    · exact ⟨_, rfl⟩
    rcases validate_htlc_loop_shape policy "offered"
        (MIN_DUST_LIMIT_SATOSHIS + DUST_RELAY_TX_FEE *
          htlc_timeout_tx_weight setup.option_anchor_outputs / 1000)
        cstate.current_height info.offered_htlcs 0 with ⟨v1, h1⟩ | ⟨m, h1⟩
    · simp only [h1]
      rcases validate_htlc_loop_shape policy "received"
          (MIN_DUST_LIMIT_SATOSHIS + DUST_RELAY_TX_FEE *
            htlc_success_tx_weight setup.option_anchor_outputs / 1000)
          cstate.current_height info.received_htlcs v1 with ⟨v2, h2⟩ | ⟨m, h2⟩
      · simp only [h2]
        split
        · exact ⟨_, rfl⟩
        have hv1 := validate_htlc_loop_ok_sum policy "offered"
          (MIN_DUST_LIMIT_SATOSHIS + DUST_RELAY_TX_FEE *
            htlc_timeout_tx_weight setup.option_anchor_outputs / 1000)
          cstate.current_height info.offered_htlcs 0 v1 h1
        have hv2 := validate_htlc_loop_ok_sum policy "received"
          (MIN_DUST_LIMIT_SATOSHIS + DUST_RELAY_TX_FEE *
            htlc_success_tx_weight setup.option_anchor_outputs / 1000)
          cstate.current_height info.received_htlcs v1 v2 h2
        cases hadd : checkedAddU64 info.to_broadcaster_value_sat
            info.to_countersigner_value_sat with
        | none => simp only [hadd]; exact ⟨_, rfl⟩
        | some sum2 =>
          simp only [hadd]
          obtain ⟨hlt2, hsum2⟩ :=
            checkedAddU64_some info.to_broadcaster_value_sat
              info.to_countersigner_value_sat sum2 hadd
          cases hadd2 : checkedAddU64 sum2 v2 with
          | none => simp only [hadd2]; exact ⟨_, rfl⟩
          | some s3 =>
            exfalso
            obtain ⟨hlt3, -⟩ := checkedAddU64_some sum2 v2 s3 hadd2
            omega
      · simp only [h2]
        exact ⟨m, rfl⟩
    · simp only [h1]
      exact ⟨m, rfl⟩

/-- C7 (witness): the amended theorem applied at the concrete overflowing
input values `c7Values`. -/
theorem c7_witness :
    validate_onchain_tx testnetPolicy exWallet [] c7Tx c7Values [] =
      .error (.policy "funding sum inputs overflow") :=
  (c7_overflow_fails_policy testnetPolicy exWallet [] c7Tx c7Values []
    c1State 0 0 exSetup exCstate exCpInfo).1 (by norm_num [c7Values, u64Mod])

/-- The channels map returns what was just inserted. -/
theorem channelsGet_insert (m : List (Nat × NodeChannelSlot)) (k : Nat)
    (v : NodeChannelSlot) : channelsGet (channelsInsert m k v) k = some v := by
  simp [channelsGet, channelsInsert, List.find?]

/-- C8: `new_channel` is idempotent for a matching stub — a successful call
with an explicit id and nonce, repeated, returns the same stub and leaves
the node state (channels map included) unchanged — while a slot already
Ready fails with InvalidArgument, as does a stub slot with a different
nonce. -/
theorem c8_new_channel_idempotent (get_keys : Nat → List Nat → Nat → Nat)
    (fresh_id : Nat) (s s1 : NodeState) (id : Nat) (nonce : List Nat)
    (stub : ChannelStub) :
    (new_channel get_keys fresh_id s (some id) (some nonce) =
        .ok ((id, some stub), s1) →
      new_channel get_keys fresh_id s1 (some id) (some nonce) =
        .ok ((id, some stub), s1)) ∧
    (∀ d, channelsGet s.channels id = some (NodeChannelSlot.Ready d) →
      new_channel get_keys fresh_id s (some id) (some nonce) =
        .error (.invalidArgument "channel already ready")) ∧
    (∀ st, channelsGet s.channels id = some (NodeChannelSlot.Stub st) →
      nonce ≠ st.nonce →
      new_channel get_keys fresh_id s (some id) (some nonce) =
        .error
          (.invalidArgument "new_channel nonce mismatch with existing stub")) := by
  refine ⟨?_, ?_, ?_⟩
  · intro h
    unfold new_channel at h ⊢
    simp only [Option.getD_some] at h ⊢
    cases hm : channelsGet s.channels id with
    | none =>
      rw [hm] at h
      simp only at h
      by_cases hp : s.persisted.contains id = true
      · rw [if_pos hp] at h
        exact absurd h (by simp)
      rw [if_neg hp] at h
      have hinj := Except.ok.inj h
      have hstub : stub = ⟨nonce, get_keys id nonce 0, id⟩ := by
        have h2 := congrArg Prod.snd (congrArg Prod.fst hinj)
        simp at h2
        exact h2.symm
      have hs1 : s1 = ⟨channelsInsert s.channels id
          (NodeChannelSlot.Stub ⟨nonce, get_keys id nonce 0, id⟩),
          id :: s.persisted⟩ := by
        have h3 := congrArg Prod.snd hinj
        simp at h3
        exact h3.symm
      subst hstub
      subst hs1
      rw [channelsGet_insert]
      simp
    | some slot =>
      rw [hm] at h
      cases slot with
      | Stub st =>
        simp only at h
        by_cases hne : nonce ≠ st.nonce
        · rw [if_pos hne] at h
          exact absurd h (by simp)
        rw [if_neg hne] at h
        have hinj := Except.ok.inj h
        have hstub : stub = st := by
          have h2 := congrArg Prod.snd (congrArg Prod.fst hinj)
          simp at h2
          exact h2.symm
        have hs1 : s1 = s := by
          have h3 := congrArg Prod.snd hinj
          simp at h3
          exact h3.symm
        subst hstub
        subst hs1
        rw [hm]
        simp only
        rw [if_neg hne]
      | Ready d =>
        exact absurd h (by simp)
  · intro d hm
    unfold new_channel
    simp only [Option.getD_some]
    rw [hm]
  · intro st hm hne
    unfold new_channel
    simp only [Option.getD_some]
    rw [hm]
    simp only
    rw [if_pos hne]

/-- C8 (witness): the theorem applied at concrete states: a fresh create
followed by an identical call returns the same stub and state; a Ready slot
and a nonce-mismatched stub fail with InvalidArgument. -/
theorem c8_witness :
    new_channel exGetKeys 99
        ⟨[(5, NodeChannelSlot.Stub ⟨[7], 12, 5⟩)], [5]⟩ (some 5) (some [7]) =
      .ok ((5, some ⟨[7], 12, 5⟩),
        ⟨[(5, NodeChannelSlot.Stub ⟨[7], 12, 5⟩)], [5]⟩) ∧
    new_channel exGetKeys 99 c8ReadyState (some 5) (some [7]) =
      .error (.invalidArgument "channel already ready") ∧
    new_channel exGetKeys 99 c8StubState (some 5) (some [7]) =
      .error (.invalidArgument "new_channel nonce mismatch with existing stub") :=
  ⟨(c8_new_channel_idempotent exGetKeys 99 emptyNodeState
      ⟨[(5, NodeChannelSlot.Stub ⟨[7], 12, 5⟩)], [5]⟩ 5 [7] ⟨[7], 12, 5⟩).1 rfl,
   (c8_new_channel_idempotent exGetKeys 99 c8ReadyState c8ReadyState 5 [7]
      ⟨[7], 12, 5⟩).2.1 0 rfl,
   (c8_new_channel_idempotent exGetKeys 99 c8StubState c8StubState 5 [7]
      ⟨[7], 12, 5⟩).2.2 ⟨[8], 13, 5⟩ rfl (by decide)⟩

/-- `prepend_msg` on a transaction-format error stays a transaction-format
error. -/
theorem prependMsg_tf (p m : String) :
    ValidationError.prependMsg p (.transactionFormat m) =
      .transactionFormat (p ++ m) := rfl

/-- C9: `Node::can_spend` returns `Ok(false)` — not an error — for an empty
child path, for every script and every key/address derivation; consequently
a sweep whose wallet path hint is empty can only pass the destination check
through the allowlist. -/
theorem c9_empty_path_not_spendable
    (get_wallet_key : List Nat → Except String PubKey)
    (p2w p2sh : PubKey → Script) (script : Script)
    (policy : SimplePolicy) (al : Script → Bool) (tx : Transaction)
    (inputIdx amount : Nat) :
    node_can_spend get_wallet_key p2w p2sh [] script = .ok false ∧
    (validate_sweep policy
        ⟨node_can_spend get_wallet_key p2w p2sh, al⟩ tx inputIdx amount [] =
        .ok () →
      ∃ out0, tx.output[0]? = some out0 ∧ al out0.script_pubkey = true) := by
  constructor
  · rfl
  · intro h
    unfold validate_sweep at h
    split at h
    · exact absurd h (by simp)
    split at h
    · exact absurd h (by simp)
    split at h
    · exact absurd h (by simp)
    split at h
    · exact absurd h (by simp)
    cases hout : tx.output[0]? with
    | none =>
      rw [show getTxOut tx.output 0 =
        .error (.panicked "index out of bounds: tx.output") by
          unfold getTxOut; rw [hout]] at h
      exact absurd h (by simp)
    | some out0 =>
      rw [show getTxOut tx.output 0 = .ok out0 by
        unfold getTxOut; rw [hout]] at h
      simp only at h
      rcases validate_fee_shape policy amount out0.value with hf | ⟨m, hf⟩
      · rw [hf, mapError_ok] at h
        simp only at h
        rw [show node_can_spend get_wallet_key p2w p2sh []
            out0.script_pubkey = .ok false from rfl] at h
        simp only [Bool.not_false, Bool.true_and] at h
        by_cases hal : al out0.script_pubkey = true
        · exact ⟨out0, rfl, hal⟩
        · rw [if_pos (by simp [hal])] at h
          exact absurd h (by simp)
      · rw [hf, mapError_error] at h
        exact absurd h (by simp)

/-- C9 (witness): the theorem applied at a concrete derivation, script, and
single-output transaction whose destination is allowlisted. -/
theorem c9_witness :
    node_can_spend exGetWalletKey exP2wpkh exP2shwpkh [] 60 = .ok false ∧
    (validate_sweep testnetPolicy
        ⟨node_can_spend exGetWalletKey exP2wpkh exP2shwpkh,
          fun s => s == 60⟩
        ⟨2, 0, [⟨7, 0, 6⟩], [⟨900, 60⟩]⟩ 0 1000 [] = .ok () →
      ∃ out0, (⟨2, 0, [⟨7, 0, 6⟩], [⟨900, 60⟩]⟩ : Transaction).output[0]? =
        some out0 ∧ (out0.script_pubkey == 60) = true) :=
  c9_empty_path_not_spendable exGetWalletKey exP2wpkh exP2shwpkh 60
    testnetPolicy (fun s => s == 60) ⟨2, 0, [⟨7, 0, 6⟩], [⟨900, 60⟩]⟩ 0 1000

/-- The three structural checks at the head of `validate_sweep`: violating
any of them yields a transaction-format error. -/
theorem validate_sweep_structural (policy : SimplePolicy) (wallet : Wallet)
    (tx : Transaction) (inputIdx amount : Nat) (wallet_path : List Nat)
    (hbad : tx.input.length ≠ 1 ∨ tx.output.length ≠ 1 ∨ inputIdx ≠ 0) :
    ∃ m, validate_sweep policy wallet tx inputIdx amount wallet_path =
      .error (.transactionFormat m) := by
  unfold validate_sweep
  by_cases h1 : tx.input.length ≠ 1
  · rw [if_pos h1]
    exact ⟨_, rfl⟩
  · rw [if_neg h1]
    by_cases h2 : tx.output.length ≠ 1
    · rw [if_pos h2]
      exact ⟨_, rfl⟩
    · rw [if_neg h2]
      have h3 : inputIdx ≠ 0 := by tauto
      rw [if_pos h3]
      exact ⟨_, rfl⟩

/-- C10: every sweep validator — delayed, counterparty-HTLC, and justice —
fails with a transaction-format error whenever the submitted transaction
does not have exactly one input and one output with input index 0,
regardless of fee, destination, locktime or sequence data. -/
theorem c10_sweep_structural_checks
    (parse_received : Script → Bool → Option Int)
    (parse_offered : Script → Bool → Bool)
    (policy : SimplePolicy) (wallet : Wallet) (setup : ChannelSetup)
    (cstate : ChainState) (tx : Transaction) (redeemscript : Script)
    (inputIdx amount : Nat) (wallet_path : List Nat)
    (hbad : tx.input.length ≠ 1 ∨ tx.output.length ≠ 1 ∨ inputIdx ≠ 0) :
    (∃ m, validate_delayed_sweep policy wallet setup cstate tx inputIdx
      amount wallet_path = .error (.transactionFormat m)) ∧
    (∃ m, validate_counterparty_htlc_sweep parse_received parse_offered
      policy wallet setup cstate tx redeemscript inputIdx amount wallet_path =
      .error (.transactionFormat m)) ∧
    (∃ m, validate_justice_sweep policy wallet setup cstate tx inputIdx
      amount wallet_path = .error (.transactionFormat m)) := by
  obtain ⟨m, hm⟩ :=
    validate_sweep_structural policy wallet tx inputIdx amount wallet_path hbad
  refine ⟨⟨"validate_delayed_sweep: " ++ m, ?_⟩,
    ⟨"validate_counterparty_htlc_sweep: " ++ m, ?_⟩,
    ⟨"validate_justice_sweep: " ++ m, ?_⟩⟩
  · unfold validate_delayed_sweep
    rw [hm, mapError_error, prependMsg_tf]
  · unfold validate_counterparty_htlc_sweep
    rw [hm, mapError_error, prependMsg_tf]
  · unfold validate_justice_sweep
    rw [hm, mapError_error, prependMsg_tf]

/-- C10 (witness): the theorem applied at the concrete two-input transaction
`c10Tx`. -/
theorem c10_witness :
    (∃ m, validate_delayed_sweep testnetPolicy exWallet exSetup exCstate
      c10Tx 0 1000 [] = .error (.transactionFormat m)) ∧
    (∃ m, validate_counterparty_htlc_sweep exParseReceived exParseOffered
      testnetPolicy exWallet exSetup exCstate c10Tx 42 0 1000 [] =
      .error (.transactionFormat m)) ∧
    (∃ m, validate_justice_sweep testnetPolicy exWallet exSetup exCstate
      c10Tx 0 1000 [] = .error (.transactionFormat m)) :=
  c10_sweep_structural_checks exParseReceived exParseOffered testnetPolicy
    exWallet exSetup exCstate c10Tx 42 0 1000 [] (Or.inl (by decide))
